import Mathlib

/-!
Verification of the AllDebrid_Proxy task-lifecycle engine.

Shallow embedding of the core data model and operations of the repository:
`app/models.py` (+ migration 0004), `app/constants.py`, `app/config.py`,
`app/validation.py`, `app/utils.py`, `worker/scheduler.py`, `worker/worker.py`
and `app/api.py`.  Filesystem, network and database effects are made explicit:
free disk space, provider replies and download-executor outcomes are
parameters; mutations return a new database value plus the list of published
events.
-/

set_option maxRecDepth 4000

namespace ADP

/-! ## Data model (app/constants.py, app/models.py, alembic 0004) -/

/-- File sub-states, `FileState` in app/constants.py. -/
inductive FileState
  | listed
  | selected
  | downloading
  | done
  | failed
deriving DecidableEq, Repr

/-- `FileState.RESERVED_STATES`: states that reserve storage space. -/
def FileState.RESERVED_STATES : List FileState := [.listed, .selected, .downloading]

/-- `FileState.ACTIVE_STATES`. -/
def FileState.ACTIVE_STATES : List FileState := [.selected, .downloading]

/-- Task lifecycle states, `TaskStatus` in app/constants.py. -/
inductive TaskStatus
  | queued
  | resolving
  | waiting_selection
  | downloading
  | ready
  | done
  | completed
  | failed
  | canceled
deriving DecidableEq, Repr

/-- `TaskStatus.COMPLETED_STATUSES`. -/
def TaskStatus.COMPLETED_STATUSES : List TaskStatus := [.ready, .done, .completed]

/-- `TaskStatus.ACTIVE_STATUSES`. -/
def TaskStatus.ACTIVE_STATUSES : List TaskStatus := [.downloading, .waiting_selection]

/-- Source types (`SourceType` in app/constants.py; `upload` is used by
the direct-upload endpoint and stored by migration 0004). -/
inductive SourceType
  | magnet
  | link
  | upload
deriving DecidableEq, Repr

/-- Task modes (`TaskMode`). -/
inductive Mode
  | auto
  | select
deriving DecidableEq, Repr

/-- A `task_file` row (app/models.py `TaskFile`).  `size_bytes` is nullable,
`bytes_downloaded` is `NOT NULL DEFAULT 0`. -/
structure TaskFile where
  id : String
  task_id : String
  index : Nat
  name : String
  size_bytes : Option Nat := none
  state : FileState := .listed
  bytes_downloaded : Nat := 0
  local_path : Option String := none
  unlocked_url : Option String := none
deriving DecidableEq, Repr

/-- A `task` row (app/models.py `Task`, plus the `source_type` column added by
alembic migration 0004, which `app/api.py` reads and writes; `created_at` is
modelled as a logical timestamp used only for ordering). -/
structure Task where
  id : String
  user_id : Option Nat := none
  label : Option String := none
  mode : Mode
  source : String
  source_type : SourceType := .magnet
  infohash : String
  provider : String := "alldebrid"
  provider_ref : Option String := none
  status : TaskStatus := .queued
  progress_pct : Nat := 0
  created_at : Nat := 0
deriving DecidableEq, Repr

/-- The task store: the `task` and `task_file` tables. -/
structure DB where
  tasks : List Task
  files : List TaskFile
deriving DecidableEq, Repr

/-- Rows of `task_file` belonging to one task
(`select(TaskFile).where(TaskFile.task_id == ...)`; rows kept in insertion
order). -/
def DB.filesOf (db : DB) (task_id : String) : List TaskFile :=
  db.files.filter (fun f => f.task_id == task_id)

/-- Update every `task_file` row with the given primary key (the key is unique
in any well-formed store). -/
def DB.updateFile (db : DB) (fid : String) (g : TaskFile → TaskFile) : DB :=
  { db with files := db.files.map (fun f => if f.id == fid then g f else f) }

/-- Update every `task` row with the given primary key. -/
def DB.updateTask (db : DB) (tid : String) (g : Task → Task) : DB :=
  { db with tasks := db.tasks.map (fun t => if t.id == tid then g t else t) }

/-- Status of the task row with the given id, if present. -/
def statusOf (db : DB) (tid : String) : Option TaskStatus :=
  (db.tasks.find? (fun t => t.id == tid)).map (fun t => t.status)

/-! ## Configuration (app/config.py) and limits (app/constants.py) -/

/-- `Settings` from app/config.py with its declared defaults.  All numeric
fields carry `ge=1` validation in the source. -/
structure Settings where
  STORAGE_ROOT : String := "/srv/storage"
  LOW_SPACE_FLOOR_GB : Nat := 10
  GLOBAL_QUEUE_LIMIT : Nat := 25
  PER_TASK_MAX_ACTIVE : Nat := 3
  PER_TASK_MAX_QUEUED : Nat := 9
  ARIA2_SPLITS : Nat := 4
deriving Repr

/-- The module-level `settings` singleton with all defaults. -/
def settings : Settings := {}

/-- `Limits.MAX_RESOLVE_ATTEMPTS` (app/constants.py). -/
def Limits.MAX_RESOLVE_ATTEMPTS : Nat := 240

/-- `Limits.MAX_FILENAME_LENGTH`. -/
def Limits.MAX_FILENAME_LENGTH : Nat := 255

/-- `Limits.MAX_MAGNET_LENGTH`. -/
def Limits.MAX_MAGNET_LENGTH : Nat := 10000

/-- `Limits.MAX_URL_LENGTH`. -/
def Limits.MAX_URL_LENGTH : Nat := 2048

/-- `Limits.MAX_LABEL_LENGTH`. -/
def Limits.MAX_LABEL_LENGTH : Nat := 500

/-! ## Events (worker/scheduler.py `publish`, app/constants.py `EventType`) -/

/-- Published pub/sub payloads, restricted to the fields the claims mention. -/
inductive Event
  | state (taskId : String) (status : TaskStatus) (reason : Option String)
  | filesListed (taskId : String) (count : Nat)
  | fileState (taskId : String) (fileId : String) (st : FileState)
  | fileProgress (taskId : String) (fileId : String) (bytesDownloaded : Nat) (total : Nat)
  | fileDone (taskId : String) (fileId : String) (localPath : String)
  | fileFailed (taskId : String) (fileId : String) (reason : String)
  | hello (taskId : String) (mode : Mode) (status : TaskStatus)
deriving DecidableEq, Repr

/-! ## Scheduler (worker/scheduler.py) -/

/-- `task_total_size`: `sum([x or 0 for x in rows])` over all file rows of the
task. -/
def task_total_size (db : DB) (task : Task) : Nat :=
  ((db.filesOf task.id).map (fun f => f.size_bytes.getD 0)).sum

/-- `reserved_bytes_for_task`: Σ `max(sz - have, 0)` over the task's files in
`RESERVED_STATES` (`sz = size_bytes or 0`, `have = bytes_downloaded or 0`);
`Nat` subtraction is exactly Python's `max(sz - have, 0)`. -/
def reserved_bytes_for_task (db : DB) (task : Task) : Nat :=
  ((db.filesOf task.id).filter
      (fun f => decide (f.state ∈ FileState.RESERVED_STATES))).foldl
    (fun reserved f => reserved + (f.size_bytes.getD 0 - f.bytes_downloaded)) 0

/-- `global_reserved_bytes`: the same sum over every task in the store. -/
def global_reserved_bytes (db : DB) : Nat :=
  db.tasks.foldl (fun total t => total + reserved_bytes_for_task db t) 0

/-- `can_start_task`.  `free` stands for `disk_free_bytes(STORAGE_ROOT)`;
the subtraction `free - global_rsv` is Python integer arithmetic, hence
computed in `Int`. -/
def can_start_task (free : Nat) (stg : Settings) (db : DB) (task : Task) : Bool :=
  let low_floor : Nat := stg.LOW_SPACE_FLOOR_GB * 1024 * 1024 * 1024
  let need : Int := (task_total_size db task : Int) - (reserved_bytes_for_task db task : Int)
  let global_rsv : Int := (global_reserved_bytes db : Int)
  decide ((free : Int) - global_rsv ≥ need) && decide (free ≥ low_floor)

/-- `count_active_and_queued`: `(active, queued)` file counts for one task. -/
def count_active_and_queued (db : DB) (task : Task) : Nat × Nat :=
  let files := db.filesOf task.id
  ((files.filter (fun f => f.state == .downloading)).length,
   (files.filter (fun f => decide (f.state ∈ [FileState.listed, FileState.selected]))).length)

/-! ## The spec's admission rule (for comparison with `can_start_task`) -/

/-- Reservation of every task other than `t` (the spec's `global_reserved`). -/
def global_reserved_bytes_excluding (db : DB) (task : Task) : Nat :=
  (db.tasks.filter (fun u => !(u.id == task.id))).foldl
    (fun total t => total + reserved_bytes_for_task db t) 0

/-- Modelled from the spec's words (§4.4): admit iff
`(free − global_reserved) ≥ need_t` and `free ≥ floor`, where `need_t` is the
task's own remaining reservation and `global_reserved` excludes the task. -/
def spec_admission (free floor : Nat) (db : DB) (task : Task) : Bool :=
  decide ((free : Int) - (global_reserved_bytes_excluding db task : Int)
            ≥ (reserved_bytes_for_task db task : Int))
    && decide (free ≥ floor)

/-! ## Helper lemmas about the scheduler sums -/

theorem foldl_add_eq {α : Type} (g : α → Nat) (l : List α) (n : Nat) :
    l.foldl (fun a t => a + g t) n = n + (l.map g).sum := by
  induction l generalizing n with
  | nil => simp
  | cons x xs ih => simp [List.foldl_cons, ih, Nat.add_assoc]

theorem sum_map_filter_split {α : Type} (g : α → Nat) (p : α → Bool) (l : List α) :
    (l.map g).sum
      = ((l.filter p).map g).sum + ((l.filter (fun x => !p x)).map g).sum := by
  induction l with
  | nil => simp
  | cons x xs ih =>
    by_cases h : p x = true <;> simp [List.filter_cons, h, ih] <;> omega

theorem sum_map_filter_le {α : Type} (r g : α → Nat) (p : α → Bool) (l : List α)
    (hrg : ∀ f, r f ≤ g f) :
    ((l.filter p).map r).sum ≤ (l.map g).sum := by
  induction l with
  | nil => simp
  | cons x xs ih =>
    by_cases h : p x = true <;> simp only [List.filter_cons, h] <;> simp <;>
      have := hrg x <;> omega

theorem global_reserved_split (db : DB) (t : Task)
    (h : db.tasks.filter (fun u => u.id == t.id) = [t]) :
    global_reserved_bytes db
      = global_reserved_bytes_excluding db t + reserved_bytes_for_task db t := by
  unfold global_reserved_bytes global_reserved_bytes_excluding
  rw [foldl_add_eq, foldl_add_eq,
      sum_map_filter_split (fun u => reserved_bytes_for_task db u)
        (fun u => u.id == t.id) db.tasks, h]
  simp [Nat.add_comm, Nat.add_left_comm]

/-- `reserved_bytes_for_task` never exceeds `task_total_size`: the reservation
sums truncated remainders over a subset of the task's files. -/
theorem reserved_le_total (db : DB) (t : Task) :
    reserved_bytes_for_task db t ≤ task_total_size db t := by
  unfold reserved_bytes_for_task task_total_size
  simp only [foldl_add_eq, Nat.zero_add]
  exact sum_map_filter_le _ _ _ _ (fun f => Nat.sub_le _ _)

/-! ## Claim C1 -/

/-- C1 (amended).  `can_start_task` admits a task `t` iff
`free ≥ global_reserved_excluding_t + task_total_size_t` and `free ≥ floor`:
the code reserves the task's FULL manifest size (`task_total_size`, not its
remaining bytes `need_t`) on top of every other task's remaining reservation,
and at exactly `free == floor` admission is GRANTED whenever the space
condition holds (the comparison is `free >= low_floor`). -/
theorem C1_admission_characterization (free : Nat) (stg : Settings) (db : DB) (t : Task)
    (h : db.tasks.filter (fun u => u.id == t.id) = [t]) :
    (can_start_task free stg db t
      = (decide (free ≥ global_reserved_bytes_excluding db t + task_total_size db t)
          && decide (free ≥ stg.LOW_SPACE_FLOOR_GB * 1024 * 1024 * 1024)))
    ∧ (free = stg.LOW_SPACE_FLOOR_GB * 1024 * 1024 * 1024 →
        global_reserved_bytes_excluding db t + task_total_size db t ≤ free →
        can_start_task free stg db t = true) := by
  have hsplit := global_reserved_split db t h
  have hmain : can_start_task free stg db t
      = (decide (free ≥ global_reserved_bytes_excluding db t + task_total_size db t)
          && decide (free ≥ stg.LOW_SPACE_FLOOR_GB * 1024 * 1024 * 1024)) := by
    unfold can_start_task
    dsimp only
    congr 1
    rw [decide_eq_decide]
    omega
  refine ⟨hmain, ?_⟩
  intro hfree hsp
  rw [hmain]
  simp only [Bool.and_eq_true, decide_eq_true_eq]
  omega

/-- Witness for `C1_admission_characterization` at a concrete store. -/
theorem C1_admission_characterization_witness :
    (can_start_task 10737418240 settings
        { tasks := [{ id := "t1", mode := .auto, source := "m", infohash := "h",
                      status := .downloading }], files := [] }
        { id := "t1", mode := .auto, source := "m", infohash := "h",
          status := .downloading }
      = (decide ((10737418240 : Nat) ≥
            global_reserved_bytes_excluding
              { tasks := [{ id := "t1", mode := .auto, source := "m", infohash := "h",
                            status := .downloading }], files := [] }
              { id := "t1", mode := .auto, source := "m", infohash := "h",
                status := .downloading }
            + task_total_size
              { tasks := [{ id := "t1", mode := .auto, source := "m", infohash := "h",
                            status := .downloading }], files := [] }
              { id := "t1", mode := .auto, source := "m", infohash := "h",
                status := .downloading })
          && decide ((10737418240 : Nat) ≥ settings.LOW_SPACE_FLOOR_GB * 1024 * 1024 * 1024)))
    ∧ ((10737418240 : Nat) = settings.LOW_SPACE_FLOOR_GB * 1024 * 1024 * 1024 →
        global_reserved_bytes_excluding
            { tasks := [{ id := "t1", mode := .auto, source := "m", infohash := "h",
                          status := .downloading }], files := [] }
            { id := "t1", mode := .auto, source := "m", infohash := "h",
              status := .downloading }
          + task_total_size
            { tasks := [{ id := "t1", mode := .auto, source := "m", infohash := "h",
                          status := .downloading }], files := [] }
            { id := "t1", mode := .auto, source := "m", infohash := "h",
              status := .downloading } ≤ 10737418240 →
        can_start_task 10737418240 settings
            { tasks := [{ id := "t1", mode := .auto, source := "m", infohash := "h",
                          status := .downloading }], files := [] }
            { id := "t1", mode := .auto, source := "m", infohash := "h",
              status := .downloading } = true) :=
  C1_admission_characterization 10737418240 settings _ _ (by decide)

/-- C1 counterexample.  First state: one task, one `downloading` file of size
`floor + 100` with 50 bytes downloaded, `free = floor + 60`.  The spec's rule
(`need_t` = remaining bytes = `floor + 50` ≤ `free`, floor satisfied) admits,
but `can_start_task` denies (it requires `free ≥ floor + 100`).  Second state:
an empty task with `free == floor` exactly: the code ADMITS, refuting the
claim's "at exactly `free == floor` admission is denied". -/
theorem C1_counterexample :
    (spec_admission (10737418240 + 60) 10737418240
        { tasks := [{ id := "t1", mode := .auto, source := "m", infohash := "h",
                      status := .downloading }],
          files := [{ id := "f1", task_id := "t1", index := 0, name := "a.bin",
                      size_bytes := some (10737418240 + 100),
                      state := .downloading, bytes_downloaded := 50 }] }
        { id := "t1", mode := .auto, source := "m", infohash := "h",
          status := .downloading } = true
      ∧ can_start_task (10737418240 + 60) settings
          { tasks := [{ id := "t1", mode := .auto, source := "m", infohash := "h",
                        status := .downloading }],
            files := [{ id := "f1", task_id := "t1", index := 0, name := "a.bin",
                        size_bytes := some (10737418240 + 100),
                        state := .downloading, bytes_downloaded := 50 }] }
          { id := "t1", mode := .auto, source := "m", infohash := "h",
            status := .downloading } = false)
    ∧ (can_start_task 10737418240 settings
          { tasks := [{ id := "t2", mode := .auto, source := "m", infohash := "h",
                        status := .downloading }], files := [] }
          { id := "t2", mode := .auto, source := "m", infohash := "h",
            status := .downloading } = true
        ∧ settings.LOW_SPACE_FLOOR_GB * 1024 * 1024 * 1024 = 10737418240) := by
  refine ⟨⟨?_, ?_⟩, ?_, ?_⟩ <;> decide

/-! ## String helpers (kernel-computable equivalents of the Python string
operations used by the validators) -/

/-- `str.upper()` (ASCII, which is all the validators compare against). -/
def strUpper (s : String) : String := String.mk (s.data.map Char.toUpper)

/-- `str.lower()` (ASCII). -/
def strLower (s : String) : String := String.mk (s.data.map Char.toLower)

/-- `str.startswith(pre)`. -/
def strStartsWith (s pre : String) : Bool := pre.data.isPrefixOf s.data

/-- Python whitespace stripped by `str.strip()`. -/
def pyIsSpace (c : Char) : Bool :=
  c == ' ' || c == '\t' || c == '\n' || c == '\x0d' ||
    c == Char.ofNat 11 || c == Char.ofNat 12

/-- `str.strip()`. -/
def strStrip (s : String) : String :=
  String.mk (((s.data.dropWhile pyIsSpace).reverse.dropWhile pyIsSpace).reverse)

/-- One step of Python's substring scan (`sub in s`), over characters. -/
def containsSubAux (sub : List Char) : List Char → Bool
  | [] => false
  | c :: rest => sub.isPrefixOf (c :: rest) || containsSubAux sub rest

/-- Python's `sub in s` for a non-empty `sub`. -/
def containsSub (s sub : String) : Bool :=
  sub.data == [] || containsSubAux sub.data s.data

/-! ## Validation (app/validation.py) -/

/-- Python's `re.match('^[0-9a-f]$', c, re.IGNORECASE)` character class used in
hash and task-id checks. -/
def isHexChar (c : Char) : Bool :=
  (decide ('0' ≤ c) && decide (c ≤ '9')) ||
  (decide ('a' ≤ c) && decide (c ≤ 'f')) ||
  (decide ('A' ≤ c) && decide (c ≤ 'F'))

/-- `[A-Z2-7]` with `re.IGNORECASE` (base32 characters). -/
def isBase32Char (c : Char) : Bool :=
  (decide ('A' ≤ c) && decide (c ≤ 'Z')) ||
  (decide ('a' ≤ c) && decide (c ≤ 'z')) ||
  (decide ('2' ≤ c) && decide (c ≤ '7'))

/-- `Patterns.UUID_PATTERN` matching (`^[0-9a-f]{8}-...{12}$` with
`re.IGNORECASE`): length 36, dashes at offsets 8, 13, 18, 23, hex elsewhere. -/
def uuidMatch (s : String) : Bool :=
  s.length == 36 &&
    (s.data.enum.all (fun p =>
      if p.1 == 8 || p.1 == 13 || p.1 == 18 || p.1 == 23 then p.2 == '-'
      else isHexChar p.2))

/-- `validate_task_id`: empty rejected, UUID shape enforced, result
lower-cased. -/
def validate_task_id (task_id : String) : Except String String :=
  if task_id == "" then .error "Task ID is required"
  else if !uuidMatch task_id then .error "Invalid task ID format"
  else .ok (strLower task_id)

/-- The reserved names rejected by `validate_file_name`. -/
def dangerous_names : List String :=
  [".", "..", "CON", "PRN", "AUX", "NUL", "COM1", "COM2", "COM3",
   "COM4", "COM5", "COM6", "COM7", "COM8", "COM9", "LPT1", "LPT2",
   "LPT3", "LPT4", "LPT5", "LPT6", "LPT7", "LPT8", "LPT9"]

/-- `validate_file_name` (app/validation.py lines 83-114). -/
def validate_file_name (file_name : String) : Except String String :=
  if file_name == "" then .error "File name is required"
  else if file_name.length > Limits.MAX_FILENAME_LENGTH then
    .error "File name is too long"
  else if file_name.data.contains '/' || file_name.data.contains '\\' then
    .error "File name cannot contain path separators"
  else if file_name.data.contains (Char.ofNat 0) then
    .error "Null byte in file name"
  else if file_name.data.any (fun c => c.toNat < 32) then
    .error "File name contains control characters"
  else if dangerous_names.contains (strUpper file_name) then
    .error "Reserved file name"
  else .ok file_name

/-- `validate_file_name` succeeds (the `try/except` guards in the worker test
exactly this). -/
def isValidFileName (file_name : String) : Bool :=
  match validate_file_name file_name with
  | .ok _ => true
  | .error _ => false

/-- `validate_infohash`: 40 hex characters or 32 base32 characters
(case-insensitive), returned lower-cased. -/
def validate_infohash (infohash : String) : Except String String :=
  if infohash == "" then .error "Info hash is required"
  else if infohash.length == 40 then
    if infohash.data.all isHexChar then .ok (strLower infohash)
    else .error "Invalid SHA-1 info hash format"
  else if infohash.length == 32 then
    if infohash.data.all isBase32Char then .ok (strLower infohash)
    else .error "Invalid base32 info hash format"
  else .error "Info hash must be 40 hex or 32 base32 characters"

/-- `validate_magnet_link`. -/
def validate_magnet_link (magnet : String) : Except String String :=
  if magnet == "" then .error "Magnet link is required"
  else if magnet.length > Limits.MAX_MAGNET_LENGTH then
    .error "Magnet link is too long"
  else if !strStartsWith magnet "magnet:" then
    .error "Invalid magnet link format"
  else if !containsSub (strLower magnet) "xt=urn:btih:" then
    .error "Magnet link missing info hash"
  else .ok magnet

/-- `validate_url`. -/
def validate_url (url : String) : Except String String :=
  if url == "" then .error "URL is required"
  else if !(strStartsWith url "http://" || strStartsWith url "https://") then
    .error "URL must start with http:// or https://"
  else if url.length > Limits.MAX_URL_LENGTH then
    .error "URL is too long"
  else if url.data.contains '\r' || url.data.contains '\n'
      || url.data.contains (Char.ofNat 0) then
    .error "URL contains invalid characters"
  else .ok url

/-- `validate_source`: magnet or HTTP(S) URL, stripped first. -/
def validate_source (source : String) : Except String (String × SourceType) :=
  if source == "" then .error "Source is required"
  else
    let source := strStrip source
    if strStartsWith source "magnet:" then
      match validate_magnet_link source with
      | .ok v => .ok (v, .magnet)
      | .error e => .error e
    else if strStartsWith source "http://" || strStartsWith source "https://" then
      match validate_url source with
      | .ok v => .ok (v, .link)
      | .error e => .error e
    else .error "Source must be a magnet link (magnet:) or HTTP/HTTPS URL"

/-- `validate_label`: length cap, control characters stripped, whitespace
trimmed, empty collapses to `None`. -/
def validate_label (label : Option String) : Except String (Option String) :=
  match label with
  | none => .ok none
  | some l =>
    if l.length > Limits.MAX_LABEL_LENGTH then
      .error "Label exceeds maximum length"
    else
      let l := String.mk (l.data.filter (fun c => decide (32 ≤ c.toNat)))
      if strStrip l == "" then .ok none else .ok (some (strStrip l))

/-! ## Source identifiers (app/utils.py) -/

/-- Try to match `Patterns.MAGNET_BTIH` at the head of a character list:
`btih:` (case-insensitive) followed by 40 hex characters, or — preferring the
first regex alternative — 32 base32 characters. -/
def btihMatchAt (cs : List Char) : Option String :=
  match cs with
  | b :: t :: i :: h :: colon :: rest =>
    if b.toLower == 'b' && t.toLower == 't' && i.toLower == 'i'
        && h.toLower == 'h' && colon == ':' then
      let hex := rest.take 40
      if hex.length == 40 && hex.all isHexChar then some (String.mk hex)
      else
        let b32 := rest.take 32
        if b32.length == 32 && b32.all isBase32Char then some (String.mk b32)
        else none
    else none
  | _ => none

/-- `re.search`: leftmost match of the `btih` pattern. -/
def searchBtih : List Char → Option String
  | [] => none
  | c :: rest =>
    match btihMatchAt (c :: rest) with
    | some s => some s
    | none => searchBtih rest

/-- `parse_infohash`: find the `btih` group, lower-case it, then
`validate_infohash`. -/
def parse_infohash (magnet : String) : Option String :=
  match searchBtih magnet.data with
  | none => none
  | some g =>
    match validate_infohash (strLower g) with
    | .ok v => some v
    | .error _ => none

/-- `generate_link_hash`: SHA-1 hex digest of the stripped URL.  The digest
itself is the opaque cryptographic primitive `hashlib.sha1(...).hexdigest()`,
passed in as a parameter. -/
def generate_link_hash (sha1hex : String → String) (url : String) : String :=
  sha1hex (strStrip url)

/-- `parse_source_identifier`. -/
def parse_source_identifier (sha1hex : String → String) (source : String)
    (source_type : SourceType) : Except String String :=
  match source_type with
  | .magnet =>
    match parse_infohash source with
    | some h => .ok h
    | none => .error "Could not extract infohash from magnet link"
  | .link => .ok (generate_link_hash sha1hex source)
  | .upload => .error "Unknown source type"

/-! ## Progress monitor (worker/worker.py `_progress_monitor_loop`) -/

/-- One observation of the filesystem for one file: existence and byte size of
the final output path and of the `<name>.aria2` sidecar. -/
structure MonitorFS where
  out_exists : Bool
  tmp_exists : Bool
  out_size : Nat
  tmp_size : Nat
deriving DecidableEq, Repr

/-- `size_path = out_path if exists else tmp_path`;
`cur = getsize(size_path) if exists(size_path) else 0`. -/
def monitor_observed (fs : MonitorFS) : Nat :=
  if fs.out_exists then fs.out_size
  else if fs.tmp_exists then fs.tmp_size
  else 0

/-- The final output path `os.path.join(STORAGE_ROOT, task_id, "files", name)`. -/
def monitor_out_path (stg : Settings) (f : TaskFile) : String :=
  stg.STORAGE_ROOT ++ "/" ++ f.task_id ++ "/files/" ++ f.name

/-- One iteration of the monitor's inner loop for one file in `downloading`
state: skip invalid names, reconcile `bytes_downloaded` with the observed
on-disk count, and complete the file when the output exists, the sidecar is
gone and the observed count reaches `size_bytes` (or the size is
zero/unknown).  (The `UserStats` bookkeeping on completion is not modelled;
it touches no task or file row.) -/
def monitor_step (stg : Settings) (fs : MonitorFS) (f : TaskFile) :
    TaskFile × List Event :=
  if !isValidFileName f.name then (f, [])
  else
    let out_path := monitor_out_path stg f
    let cur := monitor_observed fs
    let total := f.size_bytes.getD 0
    let f1 := if cur ≠ f.bytes_downloaded then { f with bytes_downloaded := cur } else f
    let evs1 := if cur ≠ f.bytes_downloaded then
        [Event.fileProgress f.task_id f.id cur total] else []
    if fs.out_exists && !fs.tmp_exists && (total == 0 || cur ≥ total) then
      if f1.state ≠ FileState.done then
        ({ f1 with state := .done, local_path := some out_path },
         evs1 ++ [Event.fileDone f.task_id f.id out_path])
      else (f1, evs1)
    else (f1, evs1)

/-- Canonical form of one monitor step on a `downloading` file with a valid
name: `bytes_downloaded` becomes the observed count, a progress event fires
iff the count changed, and the file completes iff the output exists, the
sidecar is gone, and the size is zero/unknown or reached. -/
theorem monitor_step_eq (stg : Settings) (fs : MonitorFS) (f : TaskFile)
    (hname : isValidFileName f.name = true) (hstate : f.state = .downloading) :
    monitor_step stg fs f =
      (if fs.out_exists = true ∧ fs.tmp_exists = false
          ∧ (f.size_bytes.getD 0 = 0 ∨ monitor_observed fs ≥ f.size_bytes.getD 0) then
        ({ f with bytes_downloaded := monitor_observed fs, state := .done,
                  local_path := some (monitor_out_path stg f) },
         (if monitor_observed fs ≠ f.bytes_downloaded then
            [Event.fileProgress f.task_id f.id (monitor_observed fs) (f.size_bytes.getD 0)]
          else [])
           ++ [Event.fileDone f.task_id f.id (monitor_out_path stg f)])
      else
        ({ f with bytes_downloaded := monitor_observed fs },
         if monitor_observed fs ≠ f.bytes_downloaded then
           [Event.fileProgress f.task_id f.id (monitor_observed fs) (f.size_bytes.getD 0)]
         else [])) := by
  unfold monitor_step
  rw [hname]
  simp only [Bool.not_true, Bool.false_eq_true, if_false]
  have hC : ((fs.out_exists && !fs.tmp_exists
        && (f.size_bytes.getD 0 == 0 || decide (monitor_observed fs ≥ f.size_bytes.getD 0))) = true)
      ↔ (fs.out_exists = true ∧ fs.tmp_exists = false
          ∧ (f.size_bytes.getD 0 = 0 ∨ monitor_observed fs ≥ f.size_bytes.getD 0)) := by
    simp [Bool.and_eq_true, Bool.or_eq_true, Bool.not_eq_true']
    tauto
  by_cases hc : fs.out_exists = true ∧ fs.tmp_exists = false
      ∧ (f.size_bytes.getD 0 = 0 ∨ monitor_observed fs ≥ f.size_bytes.getD 0) <;>
    by_cases hcur : monitor_observed fs ≠ f.bytes_downloaded
  · simp only [if_pos hcur, if_pos (hC.mpr hc), if_pos hc]
    rw [if_pos (show ({ f with bytes_downloaded := monitor_observed fs} : TaskFile).state
        ≠ FileState.done from by simp [hstate])]
  · have hb : monitor_observed fs = f.bytes_downloaded := of_not_not hcur
    simp only [if_neg hcur, if_pos (hC.mpr hc), if_pos hc]
    rw [if_pos (show f.state ≠ FileState.done from by simp [hstate]), hb]
  · simp only [if_pos hcur,
      if_neg (show ¬((fs.out_exists && !fs.tmp_exists
        && (f.size_bytes.getD 0 == 0 || decide (monitor_observed fs ≥ f.size_bytes.getD 0))) = true)
        from fun hb => hc (hC.mp hb)),
      if_neg hc]
  · have hb : monitor_observed fs = f.bytes_downloaded := of_not_not hcur
    simp only [if_neg hcur,
      if_neg (show ¬((fs.out_exists && !fs.tmp_exists
        && (f.size_bytes.getD 0 == 0 || decide (monitor_observed fs ≥ f.size_bytes.getD 0))) = true)
        from fun hb => hc (hC.mp hb)),
      if_neg hc]
    rw [hb]

/-! ## Claim C5 -/

/-- C5 (confirmed).  For a `downloading` file with a valid name, one monitor
step marks it `done`, sets `local_path` to the final output path and publishes
`file.done` exactly when the output file exists, the `.aria2` sidecar does
not, and the size is zero/unknown or the observed byte count reaches it; in
particular a file of unknown size completes as soon as the sidecar vanishes
and the output exists. -/
theorem C5_monitor_completion (stg : Settings) (fs : MonitorFS) (f : TaskFile)
    (hstate : f.state = .downloading) (hname : isValidFileName f.name = true) :
    (((monitor_step stg fs f).1.state = .done
        ∧ (monitor_step stg fs f).1.local_path = some (monitor_out_path stg f)
        ∧ Event.fileDone f.task_id f.id (monitor_out_path stg f)
            ∈ (monitor_step stg fs f).2)
      ↔ (fs.out_exists = true ∧ fs.tmp_exists = false
          ∧ (f.size_bytes.getD 0 = 0 ∨ monitor_observed fs ≥ f.size_bytes.getD 0)))
    ∧ (f.size_bytes = none → fs.out_exists = true → fs.tmp_exists = false →
        (monitor_step stg fs f).1.state = .done) := by
  rw [monitor_step_eq stg fs f hname hstate]
  by_cases hc : fs.out_exists = true ∧ fs.tmp_exists = false
      ∧ (f.size_bytes.getD 0 = 0 ∨ monitor_observed fs ≥ f.size_bytes.getD 0)
  · rw [if_pos hc]
    constructor
    · simp [hc]
    · intro _ _ _
      rfl
  · rw [if_neg hc]
    constructor
    · simp only [iff_false_intro hc, iff_false]
      intro hcontra
      exact absurd hcontra.1 (by simp [hstate])
    · intro hnone h1 h2
      exact absurd ⟨h1, h2, Or.inl (by simp [hnone])⟩ hc

/-- Witness for `C5_monitor_completion`. -/
theorem C5_monitor_completion_witness :
    (((monitor_step settings ⟨true, false, 10, 0⟩
          { id := "f1", task_id := "t1", index := 0, name := "a.bin",
            size_bytes := some 10, state := .downloading,
            bytes_downloaded := 4 }).1.state = .done
        ∧ (monitor_step settings ⟨true, false, 10, 0⟩
            { id := "f1", task_id := "t1", index := 0, name := "a.bin",
              size_bytes := some 10, state := .downloading,
              bytes_downloaded := 4 }).1.local_path
            = some (monitor_out_path settings
                { id := "f1", task_id := "t1", index := 0, name := "a.bin",
                  size_bytes := some 10, state := .downloading,
                  bytes_downloaded := 4 })
        ∧ Event.fileDone "t1" "f1"
            (monitor_out_path settings
              { id := "f1", task_id := "t1", index := 0, name := "a.bin",
                size_bytes := some 10, state := .downloading,
                bytes_downloaded := 4 })
            ∈ (monitor_step settings ⟨true, false, 10, 0⟩
                { id := "f1", task_id := "t1", index := 0, name := "a.bin",
                  size_bytes := some 10, state := .downloading,
                  bytes_downloaded := 4 }).2)
      ↔ (true = true ∧ false = false ∧ ((10 : Nat) = 0 ∨ monitor_observed ⟨true, false, 10, 0⟩ ≥ 10)))
    ∧ ((some 10 : Option Nat) = none → true = true → false = false →
        (monitor_step settings ⟨true, false, 10, 0⟩
          { id := "f1", task_id := "t1", index := 0, name := "a.bin",
            size_bytes := some 10, state := .downloading,
            bytes_downloaded := 4 }).1.state = .done) :=
  C5_monitor_completion settings ⟨true, false, 10, 0⟩
    { id := "f1", task_id := "t1", index := 0, name := "a.bin",
      size_bytes := some 10, state := .downloading, bytes_downloaded := 4 }
    (by decide) (by decide)

/-! ## Claim C8 -/

/-- C8 counterexample.  A monitor step on a `downloading` file with 100 bytes
recorded, when both the output and the sidecar are absent (observed count 0),
writes `bytes_downloaded := 0` — a strict decrease before any success. -/
theorem C8_counterexample :
    ((monitor_step settings ⟨false, false, 0, 0⟩
        { id := "f1", task_id := "t1", index := 0, name := "a.bin",
          size_bytes := some 1000, state := .downloading,
          bytes_downloaded := 100 }).1.bytes_downloaded = 0)
    ∧ ((monitor_step settings ⟨false, false, 0, 0⟩
        { id := "f1", task_id := "t1", index := 0, name := "a.bin",
          size_bytes := some 1000, state := .downloading,
          bytes_downloaded := 100 }).1.state = .downloading)
    ∧ (0 < 100) := by
  refine ⟨?_, ?_, ?_⟩ <;> decide

/-- C8 (amended).  The monitor assigns the OBSERVED on-disk byte count
unconditionally whenever it differs from the stored value, so
`bytes_downloaded` can decrease (e.g. when the partial file disappears);
it is non-decreasing exactly when the observed count is at least the stored
value. -/
theorem C8_monitor_assigns_observed (stg : Settings) (fs : MonitorFS) (f : TaskFile)
    (hstate : f.state = .downloading) (hname : isValidFileName f.name = true) :
    ((monitor_step stg fs f).1.bytes_downloaded = monitor_observed fs)
    ∧ (f.bytes_downloaded ≤ monitor_observed fs →
        f.bytes_downloaded ≤ (monitor_step stg fs f).1.bytes_downloaded) := by
  rw [monitor_step_eq stg fs f hname hstate]
  by_cases hc : fs.out_exists = true ∧ fs.tmp_exists = false
      ∧ (f.size_bytes.getD 0 = 0 ∨ monitor_observed fs ≥ f.size_bytes.getD 0) <;>
    simp [hc]

/-- Witness for `C8_monitor_assigns_observed`. -/
theorem C8_monitor_assigns_observed_witness :
    ((monitor_step settings ⟨false, true, 0, 7⟩
        { id := "f1", task_id := "t1", index := 0, name := "a.bin",
          size_bytes := some 1000, state := .downloading,
          bytes_downloaded := 4 }).1.bytes_downloaded
      = monitor_observed ⟨false, true, 0, 7⟩)
    ∧ ((4 : Nat) ≤ monitor_observed ⟨false, true, 0, 7⟩ →
        (4 : Nat) ≤ (monitor_step settings ⟨false, true, 0, 7⟩
          { id := "f1", task_id := "t1", index := 0, name := "a.bin",
            size_bytes := some 1000, state := .downloading,
            bytes_downloaded := 4 }).1.bytes_downloaded) :=
  C8_monitor_assigns_observed settings ⟨false, true, 0, 7⟩
    { id := "f1", task_id := "t1", index := 0, name := "a.bin",
      size_bytes := some 1000, state := .downloading, bytes_downloaded := 4 }
    (by decide) (by decide)

/-! ## File dispatcher (worker/worker.py `start_next_files`) -/

/-- External outcomes one dispatcher pass depends on: writability of the
task's output directory (`_dir_writable`), the provider unlock
(`client.download_link(provider_ref, index)`, `none` models a raised
exception) and the aria2 RPC enqueue result per file index. -/
structure DispatchEnv where
  dir_writable : Bool
  unlock : Nat → Option String
  enqueue_ok : Nat → Bool

/-- Insert into a list sorted by ascending `index`
(`order_by(TaskFile.index)`). -/
def insertByIndex (x : TaskFile) : List TaskFile → List TaskFile
  | [] => [x]
  | y :: ys => if x.index ≤ y.index then x :: y :: ys else y :: insertByIndex x ys

/-- Sort by ascending `index`. -/
def sortByIndex : List TaskFile → List TaskFile
  | [] => []
  | x :: xs => insertByIndex x (sortByIndex xs)

/-- The dispatcher's per-file loop (`for f in candidates`).  Files whose
unlock fails (exception, empty or non-http URL) are marked `failed`; a file
whose unlock succeeds is flipped to `downloading` BEFORE the enqueue, and
marked `failed` if the enqueue then raises; `started` counts successful
enqueues and the loop breaks at `to_start`. -/
def start_next_files_go (tid : String) (env : DispatchEnv) (to_start : Nat) :
    List TaskFile → Nat → DB → List Event → DB × List Event
  | [], _, db, evs => (db, evs)
  | f :: rest, started, db, evs =>
    if started ≥ to_start then (db, evs)
    else
      match env.unlock f.index with
      | some url =>
        if strStartsWith url "http" then
          let db := db.updateFile f.id
            (fun x => { x with unlocked_url := some url, state := .downloading })
          let evs := evs ++ [Event.fileState tid f.id .downloading]
          if env.enqueue_ok f.index then
            start_next_files_go tid env to_start rest (started + 1) db evs
          else
            start_next_files_go tid env to_start rest started
              (db.updateFile f.id (fun x => { x with state := .failed }))
              (evs ++ [Event.fileFailed tid f.id "enqueue_failed"])
        else
          start_next_files_go tid env to_start rest started
            (db.updateFile f.id (fun x => { x with state := .failed }))
            (evs ++ [Event.fileFailed tid f.id "unlock_failed"])
      | none =>
        start_next_files_go tid env to_start rest started
          (db.updateFile f.id (fun x => { x with state := .failed }))
          (evs ++ [Event.fileFailed tid f.id "unlock_failed"])

/-- `start_next_files` (worker/worker.py lines 266-346).  Computes the
per-task start budget, bails out when it is zero (skipping the completion
check), fails the whole task if the output directory is unwritable, runs the
per-file loop on the `selected` candidates in index order, and finally marks
the task `ready` iff it has files and ALL of them are `done`.  There is no
branch that moves the task to `failed` when files have failed. -/
def start_next_files (stg : Settings) (env : DispatchEnv) (db : DB) (task : Task) :
    DB × List Event :=
  let ac := count_active_and_queued db task
  let to_start := min (stg.PER_TASK_MAX_ACTIVE - ac.1) stg.PER_TASK_MAX_QUEUED
  if to_start ≤ 0 then (db, [])
  else
    let candidates :=
      sortByIndex ((db.filesOf task.id).filter (fun f => f.state == .selected))
    if !env.dir_writable then
      (db.updateTask task.id (fun t => { t with status := .failed }),
       [Event.state task.id .failed (some "storage_not_writable")])
    else
      let r := start_next_files_go task.id env to_start candidates 0 db []
      let files := r.1.filesOf task.id
      if !files.isEmpty && files.all (fun x => x.state == .done) then
        (r.1.updateTask task.id (fun t => { t with status := .ready }),
         r.2 ++ [Event.state task.id .ready none])
      else r

/-! ## Claim C2 -/

/-- C2 counterexample.  Task `t1` is `downloading` with two files, one
`failed` and one `done` (none `selected` or `downloading`); the claim says the
dispatcher cycle must move the task to `failed`, but `start_next_files` leaves
it in `downloading` — the code has no task-level failure branch in its
completion check. -/
theorem C2_counterexample :
    statusOf (start_next_files settings
        { dir_writable := true, unlock := fun _ => none, enqueue_ok := fun _ => false }
        { tasks := [{ id := "t1", mode := .auto, source := "m", infohash := "h",
                      status := .downloading }],
          files := [{ id := "f1", task_id := "t1", index := 0, name := "a.bin",
                      size_bytes := some 10, state := .failed },
                    { id := "f2", task_id := "t1", index := 1, name := "b.bin",
                      size_bytes := some 10, state := .done }] }
        { id := "t1", mode := .auto, source := "m", infohash := "h",
          status := .downloading }).1 "t1" = some .downloading
    ∧ some TaskStatus.downloading ≠ some TaskStatus.failed := by
  constructor
  · decide
  · decide

/-- Every task row with the updated id carries the new status after
`DB.updateTask`. -/
theorem updateTask_status (db : DB) (tid : String) (st : TaskStatus) :
    ∀ u ∈ (db.updateTask tid (fun t => { t with status := st })).tasks,
      u.id = tid → u.status = st := by
  intro u hu hid
  simp only [DB.updateTask, List.mem_map] at hu
  obtain ⟨v, _, rfl⟩ := hu
  by_cases h : (v.id == tid) = true
  · simp [h]
  · rw [if_neg (by simp [h])] at hid ⊢
    exact absurd (by simp [hid]) h

/-- C2 (amended).  At the end of a dispatcher pass on a task with at least one
file: if EVERY file is `done` the task is marked `ready` and a
`state=ready` event is published; but if some file is `failed` and no file is
`selected` or `downloading`, the pass leaves the store untouched — the task
stays `downloading` forever; there is no transition to `failed`.
(Hypotheses: the per-task caps are ≥ 1 as `config.py` validates, and the
output directory is writable.) -/
theorem C2_completion_check (stg : Settings) (env : DispatchEnv) (db : DB) (t : Task)
    (hA : 1 ≤ stg.PER_TASK_MAX_ACTIVE) (hQ : 1 ≤ stg.PER_TASK_MAX_QUEUED)
    (hw : env.dir_writable = true) (hne : db.filesOf t.id ≠ []) :
    ((∀ f ∈ db.filesOf t.id, f.state = .done) →
      (∀ u ∈ (start_next_files stg env db t).1.tasks, u.id = t.id → u.status = .ready)
        ∧ Event.state t.id .ready none ∈ (start_next_files stg env db t).2)
    ∧ ((∀ f ∈ db.filesOf t.id, f.state ≠ .selected ∧ f.state ≠ .downloading) →
        (∃ f ∈ db.filesOf t.id, f.state = .failed) →
        start_next_files stg env db t = (db, [])) := by
  have hie : (db.filesOf t.id).isEmpty = false := by
    rcases h : db.filesOf t.id with _ | ⟨a, l⟩
    · exact absurd h hne
    · rfl
  constructor
  · intro hdone
    have hdl : (db.filesOf t.id).filter (fun f => f.state == .downloading) = [] := by
      rw [List.filter_eq_nil_iff]
      intro f hf
      simp [hdone f hf]
    have hsel : (db.filesOf t.id).filter (fun f => f.state == .selected) = [] := by
      rw [List.filter_eq_nil_iff]
      intro f hf
      simp [hdone f hf]
    have hac : (count_active_and_queued db t).1 = 0 := by
      simp [count_active_and_queued, hdl]
    have hall : (db.filesOf t.id).all (fun x => x.state == .done) = true :=
      List.all_eq_true.mpr (fun x hx => by simp [hdone x hx])
    have hmain : start_next_files stg env db t
        = (db.updateTask t.id (fun u => { u with status := .ready }),
           [Event.state t.id .ready none]) := by
      unfold start_next_files
      rw [if_neg (by rw [hac]; omega)]
      rw [hw]
      rw [if_neg (by simp)]
      rw [hsel]
      show (if !(db.filesOf t.id).isEmpty
            && (db.filesOf t.id).all (fun x => x.state == .done) then _ else _) = _
      rw [if_pos (by rw [hie, hall]; rfl)]
      rfl
    rw [hmain]
    exact ⟨updateTask_status db t.id .ready, by simp⟩
  · intro hterm hfail
    have hdl : (db.filesOf t.id).filter (fun f => f.state == .downloading) = [] := by
      rw [List.filter_eq_nil_iff]
      intro f hf
      simp [(hterm f hf).2]
    have hsel : (db.filesOf t.id).filter (fun f => f.state == .selected) = [] := by
      rw [List.filter_eq_nil_iff]
      intro f hf
      simp [(hterm f hf).1]
    have hac : (count_active_and_queued db t).1 = 0 := by
      simp [count_active_and_queued, hdl]
    have hnall : (db.filesOf t.id).all (fun x => x.state == .done) = false := by
      obtain ⟨f, hf, hffail⟩ := hfail
      rcases h : (db.filesOf t.id).all (fun x => x.state == .done) with _ | _
      · rfl
      · have := List.all_eq_true.mp h f hf
        rw [hffail] at this
        exact absurd this (by decide)
    unfold start_next_files
    rw [if_neg (by rw [hac]; omega)]
    rw [hw]
    rw [if_neg (by simp)]
    rw [hsel]
    show (if !(db.filesOf t.id).isEmpty
          && (db.filesOf t.id).all (fun x => x.state == .done) then _ else _) = _
    rw [if_neg (by rw [hnall]; simp)]
    rfl

/-- Witness for `C2_completion_check`: a one-file store where the file is
already `done` is marked `ready` with the event published. -/
theorem C2_completion_check_witness :
    (∀ u ∈ (start_next_files settings
        { dir_writable := true, unlock := fun _ => none, enqueue_ok := fun _ => true }
        (DB.mk [{ id := "t1", mode := Mode.auto, source := "m", infohash := "h",
                  status := .downloading }]
               [{ id := "f1", task_id := "t1", index := 0, name := "a.bin",
                  size_bytes := some 10, state := .done }])
        { id := "t1", mode := Mode.auto, source := "m", infohash := "h",
          status := .downloading }).1.tasks, u.id = "t1" → u.status = .ready)
      ∧ Event.state "t1" .ready none ∈ (start_next_files settings
          { dir_writable := true, unlock := fun _ => none, enqueue_ok := fun _ => true }
          (DB.mk [{ id := "t1", mode := Mode.auto, source := "m", infohash := "h",
                    status := .downloading }]
                 [{ id := "f1", task_id := "t1", index := 0, name := "a.bin",
                    size_bytes := some 10, state := .done }])
          { id := "t1", mode := Mode.auto, source := "m", infohash := "h",
            status := .downloading }).2 :=
  (C2_completion_check settings
    { dir_writable := true, unlock := fun _ => none, enqueue_ok := fun _ => true }
    (DB.mk [{ id := "t1", mode := Mode.auto, source := "m", infohash := "h",
              status := .downloading }]
           [{ id := "f1", task_id := "t1", index := 0, name := "a.bin",
              size_bytes := some 10, state := .done }])
    { id := "t1", mode := Mode.auto, source := "m", infohash := "h",
      status := .downloading }
    (by decide) (by decide) (by decide) (by decide)).1 (by decide)

/-! ## Claim C6: counting in-flight files -/

/-- Number of the task's files currently in `downloading` state (what
`count_active_and_queued` calls `active`). -/
def countDownloadingFor (db : DB) (tid : String) : Nat :=
  ((db.filesOf tid).filter (fun f => f.state == .downloading)).length

/-- The combined "belongs to the task and is downloading" predicate. -/
def dlPred (tid : String) (f : TaskFile) : Bool :=
  f.task_id == tid && f.state == FileState.downloading

theorem length_filter_filter (p q : TaskFile → Bool) (l : List TaskFile) :
    ((l.filter p).filter q).length = (l.filter (fun f => p f && q f)).length := by
  induction l with
  | nil => rfl
  | cons x xs ih =>
    rw [List.filter_cons, List.filter_cons]
    by_cases hp : p x = true
    · rw [if_pos hp, List.filter_cons]
      by_cases hq : q x = true
      · rw [if_pos hq, if_pos (by rw [hp, hq]; rfl)]
        simp only [List.length_cons, ih]
      · rw [if_neg hq, if_neg (by rw [hp]; simpa using hq)]
        exact ih
    · rw [if_neg hp, if_neg (by rw [show p x = false from by simpa using hp]; simp)]
      exact ih

theorem countDownloadingFor_eq (db : DB) (tid : String) :
    countDownloadingFor db tid = (db.files.filter (dlPred tid)).length := by
  unfold countDownloadingFor DB.filesOf dlPred
  rw [length_filter_filter]

theorem filter_length_map_le (h : TaskFile → TaskFile) (pr : TaskFile → Bool)
    (l : List TaskFile) (hpt : ∀ f, pr (h f) = true → pr f = true) :
    ((l.map h).filter pr).length ≤ (l.filter pr).length := by
  induction l with
  | nil => simp
  | cons x xs ih =>
    by_cases hx : pr (h x) = true
    · have := hpt x hx
      simp [List.filter_cons, hx, this]
      omega
    · by_cases hx2 : pr x = true <;>
        simp [List.filter_cons, hx, hx2] <;> omega

theorem map_update_eq_self (fid : String) (g : TaskFile → TaskFile)
    (l : List TaskFile) (hid : ∀ f ∈ l, (f.id == fid) = false) :
    l.map (fun f => if f.id == fid then g f else f) = l := by
  induction l with
  | nil => rfl
  | cons x xs ih =>
    rw [List.map_cons, if_neg (by simp [hid x (List.mem_cons_self x xs)])]
    rw [ih (fun f hf => hid f (List.mem_cons_of_mem x hf))]

theorem filter_length_map_le_one (fid : String) (g : TaskFile → TaskFile)
    (pr : TaskFile → Bool) (l : List TaskFile)
    (hnd : (l.map (fun f => f.id)).Nodup) :
    ((l.map (fun f => if f.id == fid then g f else f)).filter pr).length
      ≤ (l.filter pr).length + 1 := by
  induction l with
  | nil => simp
  | cons x xs ih =>
    rw [List.map_cons, List.nodup_cons] at hnd
    obtain ⟨hx, hxs⟩ := hnd
    rw [List.map_cons]
    by_cases hmatch : (x.id == fid) = true
    · have hrest : ∀ f ∈ xs, (f.id == fid) = false := by
        intro f hf
        have hne : f.id ≠ x.id := by
          intro hcontra
          exact hx (hcontra ▸ List.mem_map_of_mem (fun f => f.id) hf)
        have hxf : x.id = fid := by simpa using hmatch
        simp [hxf ▸ hne]
      rw [if_pos hmatch, map_update_eq_self fid g xs hrest,
          List.filter_cons, List.filter_cons]
      by_cases h1 : pr (g x) = true
      · rw [if_pos h1]
        by_cases h2 : pr x = true
        · rw [if_pos h2]
          simp only [List.length_cons]
          omega
        · rw [if_neg h2]
          simp only [List.length_cons]
          omega
      · rw [if_neg h1]
        by_cases h2 : pr x = true
        · rw [if_pos h2]
          simp only [List.length_cons]
          omega
        · rw [if_neg h2]
          omega
    · rw [if_neg hmatch, List.filter_cons, List.filter_cons]
      have hihr := ih hxs
      by_cases h2 : pr x = true
      · rw [if_pos h2, if_pos h2]
        simp only [List.length_cons]
        omega
      · rw [if_neg h2, if_neg h2]
        omega

theorem updateFile_ids (db : DB) (fid : String) (g : TaskFile → TaskFile)
    (hg : ∀ x, (g x).id = x.id) :
    (db.updateFile fid g).files.map (fun f => f.id) = db.files.map (fun f => f.id) := by
  unfold DB.updateFile
  rw [List.map_map]
  induction db.files with
  | nil => rfl
  | cons x xs ih =>
    rw [List.map_cons, List.map_cons, ih]
    simp only [Function.comp_apply]
    by_cases h : (x.id == fid) = true
    · rw [if_pos h, hg]
    · rw [if_neg h]

theorem updateFile_comp (db : DB) (fid : String) (g1 g2 : TaskFile → TaskFile)
    (hg1 : ∀ x, (g1 x).id = x.id) :
    (db.updateFile fid g1).updateFile fid g2
      = db.updateFile fid (fun x => g2 (g1 x)) := by
  unfold DB.updateFile
  rw [List.map_map]
  congr 1
  induction db.files with
  | nil => rfl
  | cons x xs ih =>
    rw [List.map_cons, List.map_cons, ih]
    by_cases h : (x.id == fid) = true
    · simp only [Function.comp_apply, if_pos h]
      rw [if_pos (by rw [hg1 x]; exact h)]
    · simp only [Function.comp_apply, if_neg h]

/-- Marking a file `failed` (or any non-`downloading` rewrite of one row)
never increases the downloading count. -/
theorem countD_update_le (db : DB) (tid fid : String) (g : TaskFile → TaskFile)
    (hst : ∀ x, (g x).state ≠ .downloading) :
    countDownloadingFor (db.updateFile fid g) tid ≤ countDownloadingFor db tid := by
  rw [countDownloadingFor_eq, countDownloadingFor_eq]
  apply filter_length_map_le
  intro f hpr
  by_cases h : (f.id == fid) = true
  · rw [if_pos h] at hpr
    exfalso
    unfold dlPred at hpr
    have := hst f
    simp only [Bool.and_eq_true, beq_iff_eq] at hpr
    exact this hpr.2
  · rwa [if_neg h] at hpr

/-- Any single-row rewrite increases the downloading count by at most one
(`task_file.id` is a primary key). -/
theorem countD_update_le_one (db : DB) (tid fid : String) (g : TaskFile → TaskFile)
    (hnd : (db.files.map (fun f => f.id)).Nodup) :
    countDownloadingFor (db.updateFile fid g) tid ≤ countDownloadingFor db tid + 1 := by
  rw [countDownloadingFor_eq, countDownloadingFor_eq]
  exact filter_length_map_le_one fid g (dlPred tid) db.files hnd

/-- Flipping a row to `downloading` and then (after a failed enqueue) to
`failed` never increases the downloading count. -/
theorem countD_double_update_le (d : DB) (tid fid : String)
    (g1 g2 : TaskFile → TaskFile) (hg1 : ∀ x, (g1 x).id = x.id)
    (hst : ∀ x, (g2 x).state ≠ .downloading) :
    countDownloadingFor ((d.updateFile fid g1).updateFile fid g2) tid
      ≤ countDownloadingFor d tid := by
  rw [updateFile_comp d fid g1 g2 hg1]
  exact countD_update_le d tid fid (fun x => g2 (g1 x)) (fun x => hst (g1 x))

/-- Loop invariant: the dispatcher's per-file loop adds at most
`to_start - started` files to the task's downloading count. -/
theorem go_countD_le (tid : String) (env : DispatchEnv) (to_start : Nat) :
    ∀ (l : List TaskFile) (started : Nat) (db : DB) (evs : List Event),
      (db.files.map (fun f => f.id)).Nodup →
      countDownloadingFor (start_next_files_go tid env to_start l started db evs).1 tid
        ≤ countDownloadingFor db tid + (to_start - started) := by
  intro l
  induction l with
  | nil =>
    intro started db evs _
    show countDownloadingFor db tid ≤ _
    omega
  | cons f rest ih =>
    intro started db evs hnd
    unfold start_next_files_go
    by_cases hb : started ≥ to_start
    · rw [if_pos hb]
      show countDownloadingFor db tid ≤ _
      omega
    · rw [if_neg hb]
      have hidp : ∀ (x : TaskFile),
          (({ x with state := FileState.failed } : TaskFile)).id = x.id := fun _ => rfl
      have hfail_le : ∀ (d : DB),
          countDownloadingFor
              (d.updateFile f.id (fun x => { x with state := .failed })) tid
            ≤ countDownloadingFor d tid := by
        intro d
        exact countD_update_le d tid f.id _ (fun _ => by simp)
      have hfail_nd : ∀ (d : DB), (d.files.map (fun x => x.id)).Nodup →
          ((d.updateFile f.id (fun x => { x with state := .failed })).files.map
            (fun x => x.id)).Nodup := by
        intro d hd
        rw [updateFile_ids d f.id (fun x => { x with state := FileState.failed })
          (fun _ => rfl)]
        exact hd
      cases hu : env.unlock f.index with
      | some url =>
        dsimp only
        by_cases hhttp : strStartsWith url "http" = true
        · rw [if_pos hhttp]
          by_cases henq : env.enqueue_ok f.index = true
          · rw [if_pos henq]
            have hnd2 : (((db.updateFile f.id (fun x =>
                { x with unlocked_url := some url, state := .downloading })).files.map
                  (fun x => x.id))).Nodup := by
              rw [updateFile_ids db f.id (fun x =>
                { x with unlocked_url := some url, state := FileState.downloading })
                (fun _ => rfl)]
              exact hnd
            have h1 := ih (started + 1)
              (db.updateFile f.id (fun x =>
                { x with unlocked_url := some url, state := .downloading }))
              (evs ++ [Event.fileState tid f.id .downloading]) hnd2
            have h2 : countDownloadingFor
                (db.updateFile f.id (fun x =>
                  { x with unlocked_url := some url, state := .downloading })) tid
                ≤ countDownloadingFor db tid + 1 :=
              countD_update_le_one db tid f.id _ hnd
            omega
          · rw [if_neg henq]
            have hnd2 : ((((db.updateFile f.id (fun x =>
                { x with unlocked_url := some url,
                         state := FileState.downloading })).updateFile f.id
                  (fun x => { x with state := FileState.failed })).files.map
                  (fun x => x.id))).Nodup := by
              rw [updateFile_ids _ f.id (fun x => { x with state := FileState.failed })
                    (fun _ => rfl),
                  updateFile_ids db f.id (fun x =>
                    { x with unlocked_url := some url, state := FileState.downloading })
                    (fun _ => rfl)]
              exact hnd
            have h1 := ih started
              ((db.updateFile f.id (fun x =>
                { x with unlocked_url := some url, state := FileState.downloading })).updateFile
                f.id (fun x => { x with state := FileState.failed }))
              ((evs ++ [Event.fileState tid f.id .downloading])
                ++ [Event.fileFailed tid f.id "enqueue_failed"]) hnd2
            have h2 := countD_double_update_le db tid f.id
              (fun x => { x with unlocked_url := some url, state := FileState.downloading })
              (fun x => { x with state := FileState.failed })
              (fun _ => rfl) (fun _ => by simp)
            omega
        · rw [if_neg hhttp]
          have h1 := ih started
            (db.updateFile f.id (fun x => { x with state := .failed }))
            (evs ++ [Event.fileFailed tid f.id "unlock_failed"]) (hfail_nd db hnd)
          have h2 := hfail_le db
          omega
      | none =>
        dsimp only
        have h1 := ih started
          (db.updateFile f.id (fun x => { x with state := .failed }))
          (evs ++ [Event.fileFailed tid f.id "unlock_failed"]) (hfail_nd db hnd)
        have h2 := hfail_le db
        omega

/-- C6 (amended).  The dispatcher enforces only the PER-TASK caps: a task
whose downloading count is within `PER_TASK_MAX_ACTIVE` stays within it after
a dispatcher pass, and `start_next_files` is entirely independent of
`GLOBAL_QUEUE_LIMIT` — the configured global cap (default 25) is never
consulted, so with enough tasks the global in-flight count exceeds it. -/
theorem C6_per_task_bound (stg : Settings) (env : DispatchEnv) (db : DB) (t : Task)
    (hnd : (db.files.map (fun f => f.id)).Nodup)
    (hle : countDownloadingFor db t.id ≤ stg.PER_TASK_MAX_ACTIVE) :
    countDownloadingFor (start_next_files stg env db t).1 t.id ≤ stg.PER_TASK_MAX_ACTIVE
    ∧ ∀ n, start_next_files { stg with GLOBAL_QUEUE_LIMIT := n } env db t
        = start_next_files stg env db t := by
  constructor
  · unfold start_next_files
    by_cases h0 : (min (stg.PER_TASK_MAX_ACTIVE - (count_active_and_queued db t).1)
        stg.PER_TASK_MAX_QUEUED) ≤ 0
    · rw [if_pos h0]
      exact hle
    · rw [if_neg h0]
      by_cases hwr : (!env.dir_writable) = true
      · rw [if_pos hwr]
        exact hle
      · rw [if_neg hwr]
        have hac : (count_active_and_queued db t).1 = countDownloadingFor db t.id := rfl
        have hgo := go_countD_le t.id env
          (min (stg.PER_TASK_MAX_ACTIVE - (count_active_and_queued db t).1)
            stg.PER_TASK_MAX_QUEUED)
          (sortByIndex ((db.filesOf t.id).filter (fun f => f.state == .selected)))
          0 db [] hnd
        have hmin : (min (stg.PER_TASK_MAX_ACTIVE - (count_active_and_queued db t).1)
            stg.PER_TASK_MAX_QUEUED)
            ≤ stg.PER_TASK_MAX_ACTIVE - (count_active_and_queued db t).1 :=
          Nat.min_le_left _ _
        by_cases hcompl : (!((start_next_files_go t.id env
              (min (stg.PER_TASK_MAX_ACTIVE - (count_active_and_queued db t).1)
                stg.PER_TASK_MAX_QUEUED)
              (sortByIndex ((db.filesOf t.id).filter (fun f => f.state == .selected)))
              0 db []).1.filesOf t.id).isEmpty
            && ((start_next_files_go t.id env
              (min (stg.PER_TASK_MAX_ACTIVE - (count_active_and_queued db t).1)
                stg.PER_TASK_MAX_QUEUED)
              (sortByIndex ((db.filesOf t.id).filter (fun f => f.state == .selected)))
              0 db []).1.filesOf t.id).all (fun x => x.state == .done)) = true
        · rw [if_pos hcompl]
          show countDownloadingFor ((start_next_files_go _ _ _ _ _ _ _).1.updateTask _ _) _ ≤ _
          have : countDownloadingFor ((start_next_files_go t.id env
              (min (stg.PER_TASK_MAX_ACTIVE - (count_active_and_queued db t).1)
                stg.PER_TASK_MAX_QUEUED)
              (sortByIndex ((db.filesOf t.id).filter (fun f => f.state == .selected)))
              0 db []).1.updateTask t.id (fun u => { u with status := .ready })) t.id
              = countDownloadingFor (start_next_files_go t.id env
              (min (stg.PER_TASK_MAX_ACTIVE - (count_active_and_queued db t).1)
                stg.PER_TASK_MAX_QUEUED)
              (sortByIndex ((db.filesOf t.id).filter (fun f => f.state == .selected)))
              0 db []).1 t.id := rfl
          rw [this]
          omega
        · rw [if_neg hcompl]
          omega
  · intro n
    rfl

/-- Witness for `C6_per_task_bound` at a concrete store. -/
theorem C6_per_task_bound_witness :
    countDownloadingFor (start_next_files settings
        { dir_writable := true, unlock := fun _ => some "http://dl", enqueue_ok := fun _ => true }
        (DB.mk [{ id := "t1", mode := Mode.auto, source := "m", infohash := "h",
                  status := .downloading }]
               [{ id := "f1", task_id := "t1", index := 0, name := "a.bin",
                  size_bytes := some 10, state := .selected },
                { id := "f2", task_id := "t1", index := 1, name := "b.bin",
                  size_bytes := some 10, state := .selected },
                { id := "f3", task_id := "t1", index := 2, name := "c.bin",
                  size_bytes := some 10, state := .selected },
                { id := "f4", task_id := "t1", index := 3, name := "d.bin",
                  size_bytes := some 10, state := .selected }])
        { id := "t1", mode := Mode.auto, source := "m", infohash := "h",
          status := .downloading }).1 "t1" ≤ settings.PER_TASK_MAX_ACTIVE
    ∧ ∀ n, start_next_files { settings with GLOBAL_QUEUE_LIMIT := n }
        { dir_writable := true, unlock := fun _ => some "http://dl", enqueue_ok := fun _ => true }
        (DB.mk [{ id := "t1", mode := Mode.auto, source := "m", infohash := "h",
                  status := .downloading }]
               [{ id := "f1", task_id := "t1", index := 0, name := "a.bin",
                  size_bytes := some 10, state := .selected },
                { id := "f2", task_id := "t1", index := 1, name := "b.bin",
                  size_bytes := some 10, state := .selected },
                { id := "f3", task_id := "t1", index := 2, name := "c.bin",
                  size_bytes := some 10, state := .selected },
                { id := "f4", task_id := "t1", index := 3, name := "d.bin",
                  size_bytes := some 10, state := .selected }])
        { id := "t1", mode := Mode.auto, source := "m", infohash := "h",
          status := .downloading }
        = start_next_files settings
        { dir_writable := true, unlock := fun _ => some "http://dl", enqueue_ok := fun _ => true }
        (DB.mk [{ id := "t1", mode := Mode.auto, source := "m", infohash := "h",
                  status := .downloading }]
               [{ id := "f1", task_id := "t1", index := 0, name := "a.bin",
                  size_bytes := some 10, state := .selected },
                { id := "f2", task_id := "t1", index := 1, name := "b.bin",
                  size_bytes := some 10, state := .selected },
                { id := "f3", task_id := "t1", index := 2, name := "c.bin",
                  size_bytes := some 10, state := .selected },
                { id := "f4", task_id := "t1", index := 3, name := "d.bin",
                  size_bytes := some 10, state := .selected }])
        { id := "t1", mode := Mode.auto, source := "m", infohash := "h",
          status := .downloading } :=
  C6_per_task_bound settings
    { dir_writable := true, unlock := fun _ => some "http://dl", enqueue_ok := fun _ => true }
    (DB.mk [{ id := "t1", mode := Mode.auto, source := "m", infohash := "h",
              status := .downloading }]
           [{ id := "f1", task_id := "t1", index := 0, name := "a.bin",
              size_bytes := some 10, state := .selected },
            { id := "f2", task_id := "t1", index := 1, name := "b.bin",
              size_bytes := some 10, state := .selected },
            { id := "f3", task_id := "t1", index := 2, name := "c.bin",
              size_bytes := some 10, state := .selected },
            { id := "f4", task_id := "t1", index := 3, name := "d.bin",
              size_bytes := some 10, state := .selected }])
    { id := "t1", mode := Mode.auto, source := "m", infohash := "h",
      status := .downloading }
    (by decide) (by decide)

/-! ## Resolver (worker/worker.py `resolve_task`) -/

/-- One normalized manifest entry, as produced by
`AllDebrid._normalize_items`: `{"name": ..., "size": ..., "link": ...}` with
`name` defaulting to `""` and `size` to `0`. -/
structure FileInfo where
  name : String
  size : Nat
  link : Option String
deriving DecidableEq, Repr

/-- One reply of the provider's status poll (§4.2 contract:
`{files, terminal_error?}`).  `AllDebrid.get_magnet_status` returns
`{"raw": ..., "files": ...}`; any terminal error the provider reports lives in
the raw payload (`terminal_error` here) and is NEVER read by the worker, which
looks only at `files`. -/
structure ProviderStatus where
  files : List FileInfo
  terminal_error : Option String
deriving Repr

/-- The resolver's external collaborators: the provider upload
(`client.upload_magnets([source])[0]`), the status poll indexed by attempt
number, and the `uuid4` generator for new file rows (indexed by task and
creation counter so ids are fresh). -/
structure ResolveEnv where
  upload_magnets : String → String
  get_magnet_status : String → Nat → ProviderStatus
  fresh_file_id : String → Nat → String

/-- `{f.index: f for f in existing}` followed by `existing.get(i)`:
a dict comprehension keeps the LAST row per index. -/
def lookupByIndex (l : List TaskFile) (i : Nat) : Option TaskFile :=
  l.reverse.find? (fun f => f.index == i)

/-- `name = fi.get("name") or f"file_{i}"`: the provider's name, defaulting
when empty. -/
def defaultName (fi : FileInfo) (i : Nat) : String :=
  if fi.name == "" then "file_" ++ toString i else fi.name

/-- The `for i, fi in enumerate(files)` body of `resolve_task`: default the
name, skip names failing validation, reuse an existing row for the index or
insert a fresh `listed` row, and collect the `files.listed` payload
(fileId, index, name, size). -/
def listFilesLoop (task_id : String) (fresh : Nat → String) (preFiles : List TaskFile) :
    List FileInfo → Nat → Nat → DB → List (String × Nat × String × Nat) →
      DB × List (String × Nat × String × Nat)
  | [], _, _, db, payload => (db, payload)
  | fi :: rest, i, c, db, payload =>
    match validate_file_name (defaultName fi i) with
    | .error _ => listFilesLoop task_id fresh preFiles rest (i + 1) c db payload
    | .ok _ =>
      match lookupByIndex preFiles i with
      | some tf =>
        listFilesLoop task_id fresh preFiles rest (i + 1) c db
          (payload ++ [(tf.id, i, defaultName fi i, fi.size)])
      | none =>
        listFilesLoop task_id fresh preFiles rest (i + 1) (c + 1)
          { db with files := db.files ++
              [{ id := fresh c, task_id := task_id, index := i,
                 name := defaultName fi i, size_bytes := some fi.size,
                 state := .listed }] }
          (payload ++ [(fresh c, i, defaultName fi i, fi.size)])

/-- Result of the resolver's poll loop. -/
structure PollOutcome where
  db : DB
  events : List Event
  polls : Nat
  found : Bool
deriving Repr

/-- `for _ in range(MAX_RESOLVE_ATTEMPTS)` in `resolve_task`: call `status`,
and if `files` is non-empty persist the manifest and break; otherwise sleep
and poll again.  Only the `files` field of the reply is ever consulted. -/
def resolve_poll_loop (env : ResolveEnv) (task : Task) (ref : String) :
    Nat → Nat → DB → PollOutcome
  | 0, polls, db => ⟨db, [], polls, false⟩
  | fuel + 1, polls, db =>
    if (env.get_magnet_status ref polls).files.isEmpty then
      resolve_poll_loop env task ref fuel (polls + 1) db
    else
      let r := listFilesLoop task.id (env.fresh_file_id task.id) (db.filesOf task.id)
        (env.get_magnet_status ref polls).files 0 0 db []
      ⟨r.1, [Event.filesListed task.id r.2.length], polls + 1, true⟩

/-- Result of one `resolve_task` call. -/
structure ResolveOutcome where
  db : DB
  events : List Event
  polls : Nat
deriving Repr

/-- `resolve_task` (worker/worker.py lines 168-250): upload if no
`provider_ref` yet, move to `resolving`, poll for the manifest, fail with
`timeout_no_files` when the attempts are exhausted, and otherwise dispatch on
the mode — `select` parks the task in `waiting_selection`, `auto` bulk-updates
ALL of the task's file rows to `selected` and moves the task to
`downloading`. -/
def resolve_task (env : ResolveEnv) (db : DB) (task : Task) : ResolveOutcome :=
  let ref := match task.provider_ref with
    | some r => r
    | none => env.upload_magnets task.source
  let db := match task.provider_ref with
    | some _ => db
    | none => db.updateTask task.id (fun u => { u with provider_ref := some ref })
  let db := db.updateTask task.id (fun u => { u with status := .resolving })
  let evs := [Event.state task.id .resolving none]
  let r := resolve_poll_loop env task ref Limits.MAX_RESOLVE_ATTEMPTS 0 db
  if r.found = false then
    ⟨r.db.updateTask task.id (fun u => { u with status := .failed }),
     evs ++ r.events ++ [Event.state task.id .failed (some "timeout_no_files")],
     r.polls⟩
  else
    match task.mode with
    | .select =>
      ⟨r.db.updateTask task.id (fun u => { u with status := .waiting_selection }),
       evs ++ r.events ++ [Event.state task.id .waiting_selection none],
       r.polls⟩
    | .auto =>
      let db2 : DB :=
        { r.db with
          files := r.db.files.map (fun f : TaskFile =>
            if f.task_id == task.id then { f with state := .selected } else f) }
      ⟨db2.updateTask task.id (fun u => { u with status := .downloading }),
       evs ++ r.events ++ [Event.state task.id .downloading none],
       r.polls⟩

/-! ## Claim C3 -/

/-- C3 counterexample.  Stub the provider to report
`terminal_error = "magnet_dead"` with no files on EVERY poll (in particular
the first).  The claim says the loop stops at the first poll and the task
fails with the provider's reason; instead the resolver polls all 240
attempts, then fails with reason `timeout_no_files` — the provider's reason
is never read — though indeed no TaskFile rows are created. -/
theorem C3_counterexample :
    (resolve_task
        { upload_magnets := fun _ => "m1",
          get_magnet_status := fun _ _ => { files := [], terminal_error := some "magnet_dead" },
          fresh_file_id := fun _ n => "f" ++ toString n }
        { tasks := [{ id := "t1", mode := .auto, source := "m", infohash := "h",
                      provider_ref := some "m1", status := .queued }], files := [] }
        { id := "t1", mode := .auto, source := "m", infohash := "h",
          provider_ref := some "m1", status := .queued }).polls = 240
    ∧ (resolve_task
        { upload_magnets := fun _ => "m1",
          get_magnet_status := fun _ _ => { files := [], terminal_error := some "magnet_dead" },
          fresh_file_id := fun _ n => "f" ++ toString n }
        { tasks := [{ id := "t1", mode := .auto, source := "m", infohash := "h",
                      provider_ref := some "m1", status := .queued }], files := [] }
        { id := "t1", mode := .auto, source := "m", infohash := "h",
          provider_ref := some "m1", status := .queued }).events
        = [Event.state "t1" .resolving none,
           Event.state "t1" .failed (some "timeout_no_files")]
    ∧ statusOf (resolve_task
        { upload_magnets := fun _ => "m1",
          get_magnet_status := fun _ _ => { files := [], terminal_error := some "magnet_dead" },
          fresh_file_id := fun _ n => "f" ++ toString n }
        { tasks := [{ id := "t1", mode := .auto, source := "m", infohash := "h",
                      provider_ref := some "m1", status := .queued }], files := [] }
        { id := "t1", mode := .auto, source := "m", infohash := "h",
          provider_ref := some "m1", status := .queued }).db "t1" = some .failed
    ∧ (resolve_task
        { upload_magnets := fun _ => "m1",
          get_magnet_status := fun _ _ => { files := [], terminal_error := some "magnet_dead" },
          fresh_file_id := fun _ n => "f" ++ toString n }
        { tasks := [{ id := "t1", mode := .auto, source := "m", infohash := "h",
                      provider_ref := some "m1", status := .queued }], files := [] }
        { id := "t1", mode := .auto, source := "m", infohash := "h",
          provider_ref := some "m1", status := .queued }).db.files = [] := by
  refine ⟨?_, ?_, ?_, ?_⟩ <;> decide

/-- With a status poll that never returns files, the poll loop exhausts its
fuel without touching the store. -/
theorem resolve_poll_loop_empty (env : ResolveEnv) (t : Task) (ref : String)
    (hempty : ∀ r n, (env.get_magnet_status r n).files = []) :
    ∀ (fuel polls : Nat) (db : DB),
      resolve_poll_loop env t ref fuel polls db = ⟨db, [], polls + fuel, false⟩ := by
  intro fuel
  induction fuel with
  | zero =>
    intro polls db
    rfl
  | succ n ih =>
    intro polls db
    unfold resolve_poll_loop
    rw [hempty ref polls]
    rw [if_pos List.isEmpty_nil, ih (polls + 1) db]
    have harith : polls + 1 + n = polls + (n + 1) := by omega
    rw [harith]

/-- C3 (amended).  A terminal provider error is INVISIBLE to the resolver:
`get_magnet_status` surfaces only the `files` list, so when the provider
reports a terminal error (and hence no files) on every poll, the resolver
performs all `MAX_RESOLVE_ATTEMPTS` polls, then moves the task to `failed`
with reason `timeout_no_files` (the provider's reason is never persisted);
no TaskFile rows are created. -/
theorem C3_terminal_error_invisible (env : ResolveEnv) (db : DB) (t : Task)
    (hempty : ∀ r n, (env.get_magnet_status r n).files = []) :
    (∀ u ∈ (resolve_task env db t).db.tasks, u.id = t.id → u.status = .failed)
    ∧ Event.state t.id .failed (some "timeout_no_files") ∈ (resolve_task env db t).events
    ∧ (resolve_task env db t).polls = Limits.MAX_RESOLVE_ATTEMPTS
    ∧ (resolve_task env db t).db.files = db.files := by
  unfold resolve_task
  cases href : t.provider_ref with
  | some r =>
    dsimp only
    rw [resolve_poll_loop_empty env t r hempty Limits.MAX_RESOLVE_ATTEMPTS 0
        (db.updateTask t.id (fun u => { u with status := .resolving }))]
    rw [if_pos rfl]
    exact ⟨updateTask_status _ t.id .failed, by simp, rfl, rfl⟩
  | none =>
    dsimp only
    rw [resolve_poll_loop_empty env t (env.upload_magnets t.source) hempty
        Limits.MAX_RESOLVE_ATTEMPTS 0
        ((db.updateTask t.id (fun u =>
          { u with provider_ref := some (env.upload_magnets t.source) })).updateTask t.id
          (fun u => { u with status := .resolving }))]
    rw [if_pos rfl]
    exact ⟨updateTask_status _ t.id .failed, by simp, rfl, rfl⟩

/-- Witness for `C3_terminal_error_invisible`. -/
theorem C3_terminal_error_invisible_witness :
    (∀ u ∈ (resolve_task
        { upload_magnets := fun _ => "m9",
          get_magnet_status := fun _ _ => { files := [], terminal_error := none },
          fresh_file_id := fun _ n => "g" ++ toString n }
        { tasks := [{ id := "t9", mode := .select, source := "m", infohash := "h9",
                      status := .queued }], files := [] }
        { id := "t9", mode := .select, source := "m", infohash := "h9",
          status := .queued }).db.tasks, u.id = "t9" → u.status = .failed)
    ∧ Event.state "t9" .failed (some "timeout_no_files") ∈ (resolve_task
        { upload_magnets := fun _ => "m9",
          get_magnet_status := fun _ _ => { files := [], terminal_error := none },
          fresh_file_id := fun _ n => "g" ++ toString n }
        { tasks := [{ id := "t9", mode := .select, source := "m", infohash := "h9",
                      status := .queued }], files := [] }
        { id := "t9", mode := .select, source := "m", infohash := "h9",
          status := .queued }).events
    ∧ (resolve_task
        { upload_magnets := fun _ => "m9",
          get_magnet_status := fun _ _ => { files := [], terminal_error := none },
          fresh_file_id := fun _ n => "g" ++ toString n }
        { tasks := [{ id := "t9", mode := .select, source := "m", infohash := "h9",
                      status := .queued }], files := [] }
        { id := "t9", mode := .select, source := "m", infohash := "h9",
          status := .queued }).polls = Limits.MAX_RESOLVE_ATTEMPTS
    ∧ (resolve_task
        { upload_magnets := fun _ => "m9",
          get_magnet_status := fun _ _ => { files := [], terminal_error := none },
          fresh_file_id := fun _ n => "g" ++ toString n }
        { tasks := [{ id := "t9", mode := .select, source := "m", infohash := "h9",
                      status := .queued }], files := [] }
        { id := "t9", mode := .select, source := "m", infohash := "h9",
          status := .queued }).db.files
        = (DB.mk [{ id := "t9", mode := .select, source := "m", infohash := "h9",
                    status := .queued }] []).files :=
  C3_terminal_error_invisible
    { upload_magnets := fun _ => "m9",
      get_magnet_status := fun _ _ => { files := [], terminal_error := none },
      fresh_file_id := fun _ n => "g" ++ toString n }
    (DB.mk [{ id := "t9", mode := .select, source := "m", infohash := "h9",
              status := .queued }] [])
    { id := "t9", mode := .select, source := "m", infohash := "h9",
      status := .queued }
    (fun _ _ => rfl)

/-! ## Claim C9 -/

/-- C9 counterexample.  `"a..b"` contains the substring `".."` yet passes
`validate_file_name` (only the EXACT names `"."`/`".."`/reserved device names
are rejected), and the resolver persists it: a manifest listing `a..b` yields
a TaskFile row named `a..b`. -/
theorem C9_counterexample :
    isValidFileName "a..b" = true
    ∧ containsSub "a..b" ".." = true
    ∧ ((resolve_task
        { upload_magnets := fun _ => "m1",
          get_magnet_status := fun _ _ =>
            { files := [{ name := "a..b", size := 5, link := some "L" }],
              terminal_error := none },
          fresh_file_id := fun _ n => "f" ++ toString n }
        { tasks := [{ id := "t1", mode := .auto, source := "m", infohash := "h",
                      provider_ref := some "m1", status := .queued }], files := [] }
        { id := "t1", mode := .auto, source := "m", infohash := "h",
          provider_ref := some "m1", status := .queued }).db.files.map
        (fun f => f.name)) = ["a..b"] := by
  refine ⟨?_, ?_, ?_⟩ <;> decide

/-- Names persisted by `listFilesLoop` all pass `validate_file_name`. -/
theorem listFilesLoop_valid (task_id : String) (fresh : Nat → String)
    (preFiles : List TaskFile) :
    ∀ (l : List FileInfo) (i c : Nat) (db : DB)
      (payload : List (String × Nat × String × Nat)),
      (∀ f ∈ db.files, isValidFileName f.name = true) →
      ∀ f ∈ (listFilesLoop task_id fresh preFiles l i c db payload).1.files,
        isValidFileName f.name = true := by
  intro l
  induction l with
  | nil =>
    intro i c db payload hdb
    exact hdb
  | cons fi rest ih =>
    intro i c db payload hdb
    unfold listFilesLoop
    cases hv : validate_file_name (defaultName fi i) with
    | error e =>
      exact ih (i + 1) c db payload hdb
    | ok s =>
      cases hl : lookupByIndex preFiles i with
      | some tf =>
        exact ih (i + 1) c db _ hdb
      | none =>
        apply ih
        intro f hf
        rw [List.mem_append] at hf
        rcases hf with hf | hf
        · exact hdb f hf
        · rw [List.mem_singleton] at hf
          rw [hf]
          show isValidFileName (defaultName fi i) = true
          unfold isValidFileName
          rw [hv]

/-- The poll loop preserves name validity of all file rows. -/
theorem resolve_poll_loop_valid (env : ResolveEnv) (t : Task) (ref : String) :
    ∀ (fuel polls : Nat) (db : DB),
      (∀ f ∈ db.files, isValidFileName f.name = true) →
      ∀ f ∈ (resolve_poll_loop env t ref fuel polls db).db.files,
        isValidFileName f.name = true := by
  intro fuel
  induction fuel with
  | zero =>
    intro polls db hdb
    exact hdb
  | succ n ih =>
    intro polls db hdb
    unfold resolve_poll_loop
    by_cases he : (env.get_magnet_status ref polls).files.isEmpty = true
    · rw [if_pos he]
      exact ih (polls + 1) db hdb
    · rw [if_neg he]
      exact listFilesLoop_valid t.id (env.fresh_file_id t.id) (db.filesOf t.id)
        (env.get_magnet_status ref polls).files 0 0 db [] hdb

/-- C9 (amended).  `validate_file_name` guarantees: no `/`, no `\\`, no NUL
(and no control characters), the name is returned unchanged, and it is not
the EXACT name `".."` — but a name may CONTAIN `".."` as a substring and
still be accepted.  Every TaskFile row the resolver creates has a validated
name (invalid manifest names are skipped), so all persisted names satisfy
these guarantees provided the pre-existing rows do. -/
theorem C9_validation_guarantees :
    (∀ name s, validate_file_name name = .ok s →
      s = name ∧ name.data.contains '/' = false ∧ name.data.contains '\\' = false
        ∧ name.data.contains (Char.ofNat 0) = false ∧ name ≠ "..")
    ∧ (∀ (env : ResolveEnv) (db : DB) (t : Task),
        (∀ f ∈ db.files, isValidFileName f.name = true) →
        ∀ f ∈ (resolve_task env db t).db.files, isValidFileName f.name = true) := by
  constructor
  · intro name s h
    unfold validate_file_name at h
    by_cases h1 : (name == "") = true
    · rw [if_pos h1] at h
      exact absurd h (by simp)
    · rw [if_neg h1] at h
      by_cases h2 : name.length > Limits.MAX_FILENAME_LENGTH
      · rw [if_pos h2] at h
        exact absurd h (by simp)
      · rw [if_neg h2] at h
        by_cases h3 : (name.data.contains '/' || name.data.contains '\\') = true
        · rw [if_pos h3] at h
          exact absurd h (by simp)
        · rw [if_neg h3] at h
          by_cases h4 : (name.data.contains (Char.ofNat 0)) = true
          · rw [if_pos h4] at h
            exact absurd h (by simp)
          · rw [if_neg h4] at h
            by_cases h5 : (name.data.any (fun c => c.toNat < 32)) = true
            · rw [if_pos h5] at h
              exact absurd h (by simp)
            · rw [if_neg h5] at h
              by_cases h6 : (dangerous_names.contains (strUpper name)) = true
              · rw [if_pos h6] at h
                exact absurd h (by simp)
              · rw [if_neg h6] at h
                have hs : s = name := by
                  cases h
                  rfl
                refine ⟨hs, ?_, ?_, ?_, ?_⟩
                · rcases hc : name.data.contains '/' with _ | _
                  · rfl
                  · exfalso
                    apply h3
                    rw [hc]
                    rfl
                · rcases hc : name.data.contains '\\' with _ | _
                  · rfl
                  · exfalso
                    apply h3
                    rw [hc]
                    simp
                · rcases hc : name.data.contains (Char.ofNat 0) with _ | _
                  · rfl
                  · exact absurd hc h4
                · intro hdots
                  apply h6
                  rw [hdots]
                  decide
  · intro env db t hdb
    unfold resolve_task
    cases href : t.provider_ref with
    | some r =>
      dsimp only
      have hpoll := resolve_poll_loop_valid env t r Limits.MAX_RESOLVE_ATTEMPTS 0
        (db.updateTask t.id (fun u => { u with status := .resolving })) hdb
      by_cases hf : (resolve_poll_loop env t r Limits.MAX_RESOLVE_ATTEMPTS 0
          (db.updateTask t.id (fun u => { u with status := .resolving }))).found = false
      · rw [if_pos hf]
        exact hpoll
      · rw [if_neg hf]
        cases t.mode with
        | select =>
          exact hpoll
        | auto =>
          dsimp only
          intro f hf2
          simp only [DB.updateTask, List.mem_map] at hf2
          obtain ⟨g, hg, rfl⟩ := hf2
          by_cases hgt : (g.task_id == t.id) = true
          · rw [if_pos hgt]
            exact hpoll g hg
          · rw [if_neg hgt]
            exact hpoll g hg
    | none =>
      dsimp only
      have hpoll := resolve_poll_loop_valid env t (env.upload_magnets t.source)
        Limits.MAX_RESOLVE_ATTEMPTS 0
        ((db.updateTask t.id (fun u =>
          { u with provider_ref := some (env.upload_magnets t.source) })).updateTask t.id
          (fun u => { u with status := .resolving })) hdb
      by_cases hf : (resolve_poll_loop env t (env.upload_magnets t.source)
          Limits.MAX_RESOLVE_ATTEMPTS 0
          ((db.updateTask t.id (fun u =>
            { u with provider_ref := some (env.upload_magnets t.source) })).updateTask t.id
            (fun u => { u with status := .resolving }))).found = false
      · rw [if_pos hf]
        exact hpoll
      · rw [if_neg hf]
        cases t.mode with
        | select =>
          exact hpoll
        | auto =>
          dsimp only
          intro f hf2
          simp only [DB.updateTask, List.mem_map] at hf2
          obtain ⟨g, hg, rfl⟩ := hf2
          by_cases hgt : (g.task_id == t.id) = true
          · rw [if_pos hgt]
            exact hpoll g hg
          · rw [if_neg hgt]
            exact hpoll g hg

/-- Witness for `C9_validation_guarantees`. -/
theorem C9_validation_guarantees_witness :
    ("a.bin" = "a.bin" ∧ "a.bin".data.contains '/' = false
        ∧ "a.bin".data.contains '\\' = false
        ∧ "a.bin".data.contains (Char.ofNat 0) = false ∧ "a.bin" ≠ "..")
    ∧ (∀ f ∈ (resolve_task
        { upload_magnets := fun _ => "m1",
          get_magnet_status := fun _ _ =>
            { files := [{ name := "a.bin", size := 5, link := some "L" }],
              terminal_error := none },
          fresh_file_id := fun _ n => "f" ++ toString n }
        { tasks := [{ id := "t1", mode := .auto, source := "m", infohash := "h",
                      provider_ref := some "m1", status := .queued }], files := [] }
        { id := "t1", mode := .auto, source := "m", infohash := "h",
          provider_ref := some "m1", status := .queued }).db.files,
        isValidFileName f.name = true) :=
  ⟨C9_validation_guarantees.1 "a.bin" "a.bin" (by rfl),
   C9_validation_guarantees.2
    { upload_magnets := fun _ => "m1",
      get_magnet_status := fun _ _ =>
        { files := [{ name := "a.bin", size := 5, link := some "L" }],
          terminal_error := none },
      fresh_file_id := fun _ n => "f" ++ toString n }
    (DB.mk [{ id := "t1", mode := .auto, source := "m", infohash := "h",
              provider_ref := some "m1", status := .queued }] [])
    { id := "t1", mode := .auto, source := "m", infohash := "h",
      provider_ref := some "m1", status := .queued }
    (fun f hf => absurd hf (by simp))⟩

/-! ## HTTP-layer task operations (app/api.py) -/

/-- `CreateTaskRequest` (app/schemas.py): exactly the fields `mode`,
`source` and `label` — there is NO `user_id` field. -/
structure CreateTaskRequest where
  mode : String
  source : String
  label : Option String := none
deriving DecidableEq, Repr

/-- The pydantic validation of `CreateTaskRequest`: `mode` must match
`^(auto|select)$`, `source` is capped at 10000 chars, must start with
`magnet:` and be at least 20 chars, `label` is capped at 200 chars. -/
def schemaValidate (req : CreateTaskRequest) : Bool :=
  (req.mode == "auto" || req.mode == "select")
    && req.source.length ≤ 10000
    && (match req.label with
        | none => true
        | some l => l.length ≤ 200)
    && strStartsWith req.source "magnet:"
    && req.source.length ≥ 20

/-- How a `POST /api/tasks` call ends when it does not return a normal
response: a 400 from a caught `ValidationError`/`ValueError`, or an HTTP 500
from an exception neither handler catches. -/
inductive ApiError
  | badRequest (msg : String)
  | internalError (msg : String)
deriving DecidableEq, Repr

/-- The response the `POST /api/tasks` handler is written to return. -/
structure CreateResponse where
  taskId : String
  status : TaskStatus
  reused : Bool
deriving DecidableEq, Repr

/-- `create_task` (app/api.py lines 59-140).  The handler validates the
source, computes the dedup identifier and validates the label (any
`ValidationError`/`ValueError` → 400) — and then evaluates `if req.user_id:`
(api.py line 84).  `CreateTaskRequest` (app/schemas.py) declares only `mode`,
`source` and `label`, so this attribute access raises `AttributeError`, which
neither `except ValidationError` nor `except ValueError` catches: EVERY
submission that survives validation aborts with an internal error (HTTP 500)
BEFORE the dedup/insert block at lines 91-140, which is dead code. -/
def create_task (sha1hex : String → String) (db : DB) (new_id : String)
    (now : Nat) (req : CreateTaskRequest) :
    Except ApiError (DB × List Event × CreateResponse) :=
  if !schemaValidate req then .error (.badRequest "invalid request")
  else
    match validate_source req.source with
    | .error e => .error (.badRequest e)
    | .ok (validated_source, source_type) =>
      match parse_source_identifier sha1hex validated_source source_type with
      | .error e => .error (.badRequest e)
      | .ok identifier =>
        match validate_label req.label with
        | .error e => .error (.badRequest e)
        | .ok label =>
          .error (.internalError
            "AttributeError: CreateTaskRequest object has no attribute user_id")

/-- `cancel_task` (app/api.py lines 436-463): validate the id, 404 when no
row, and otherwise set `status = canceled` UNCONDITIONALLY — whatever the
current status — and publish `state=canceled`. -/
def cancel_task (db : DB) (task_id : String) :
    Except String (DB × List Event × TaskStatus) :=
  match validate_task_id task_id with
  | .error e => .error e
  | .ok tid =>
    match db.tasks.find? (fun t => t.id == tid) with
    | none => .error "Not found"
    | some _ =>
      .ok (db.updateTask tid (fun t => { t with status := .canceled }),
           [Event.state tid .canceled none], .canceled)

/-- `delete_task` (app/api.py lines 465-504): validate the id; a missing row
returns `{ok: true}` immediately (and skips the purge); an existing row is
deleted (TaskFiles cascade), then the on-disk `files` directory is removed
only when `purge_files` is true.  The second component records whether the
filesystem purge ran. -/
def delete_task (db : DB) (task_id : String) (purge_files : Bool) :
    Except String (DB × Bool) :=
  match validate_task_id task_id with
  | .error e => .error e
  | .ok tid =>
    match db.tasks.find? (fun t => t.id == tid) with
    | none => .ok (db, false)
    | some _ =>
      .ok ({ tasks := db.tasks.filter (fun u => !(u.id == tid)),
             files := db.files.filter (fun f => !(f.task_id == tid)) },
           purge_files)

/-! ## Claim C4 -/

/-- C4 counterexample.  Cancelling a task that is already `ready` (a terminal
status, from which §4.3 has no `canceled` arrow) succeeds and moves it to
`canceled`: `cancel_task` never inspects the current status. -/
theorem C4_counterexample :
    statusOf (DB.mk [{ id := "aaaaaaaa-aaaa-aaaa-aaaa-aaaaaaaaaaaa",
                       mode := Mode.auto, source := "m", infohash := "h",
                       status := .ready }] [])
        "aaaaaaaa-aaaa-aaaa-aaaa-aaaaaaaaaaaa" = some .ready
    ∧ ((cancel_task
          (DB.mk [{ id := "aaaaaaaa-aaaa-aaaa-aaaa-aaaaaaaaaaaa",
                    mode := Mode.auto, source := "m", infohash := "h",
                    status := .ready }] [])
          "aaaaaaaa-aaaa-aaaa-aaaa-aaaaaaaaaaaa").toOption.map
        (fun r => statusOf r.1 "aaaaaaaa-aaaa-aaaa-aaaa-aaaaaaaaaaaa"))
        = some (some .canceled)
    ∧ ((cancel_task
          (DB.mk [{ id := "aaaaaaaa-aaaa-aaaa-aaaa-aaaaaaaaaaaa",
                    mode := Mode.auto, source := "m", infohash := "h",
                    status := .ready }] [])
          "aaaaaaaa-aaaa-aaaa-aaaa-aaaaaaaaaaaa").toOption.map
        (fun r => r.2.2)) = some .canceled
    ∧ TaskStatus.ready ∉ [TaskStatus.queued, TaskStatus.resolving,
        TaskStatus.waiting_selection, TaskStatus.downloading] := by
  refine ⟨?_, ?_, ?_, ?_⟩ <;> decide

/-- `validate_task_id` on success returns the lower-cased input. -/
theorem validate_task_id_ok (s v : String) (h : validate_task_id s = .ok v) :
    v = strLower s := by
  unfold validate_task_id at h
  by_cases h1 : (s == "") = true
  · rw [if_pos h1] at h
    exact absurd h (by simp)
  · rw [if_neg h1] at h
    by_cases h2 : (!uuidMatch s) = true
    · rw [if_pos h2] at h
      exact absurd h (by simp)
    · rw [if_neg h2] at h
      cases h
      rfl

/-- C4 (amended).  Whenever `cancel_task` succeeds (valid id, row present) it
returns status `canceled` and every row with that id ends `canceled`,
REGARDLESS of its previous status — terminal statuses included.  The §4.3
restriction of cancel to queued/resolving/waiting_selection/downloading is
not enforced anywhere. -/
theorem C4_cancel_unconditional (db : DB) (task_id : String)
    (res : DB × List Event × TaskStatus)
    (h : cancel_task db task_id = .ok res) :
    res.2.2 = .canceled
    ∧ (∀ u ∈ res.1.tasks, u.id = strLower task_id → u.status = .canceled)
    ∧ Event.state (strLower task_id) .canceled none ∈ res.2.1 := by
  unfold cancel_task at h
  cases hv : validate_task_id task_id with
  | error e =>
    rw [hv] at h
    exact absurd h (by simp)
  | ok tid =>
    rw [hv] at h
    dsimp only at h
    have htid : tid = strLower task_id := validate_task_id_ok task_id tid hv
    cases hfind : db.tasks.find? (fun t => t.id == tid) with
    | none =>
      rw [hfind] at h
      exact absurd h (by simp)
    | some t =>
      rw [hfind] at h
      cases h
      subst htid
      exact ⟨rfl, updateTask_status db _ .canceled, by simp⟩

/-- Witness for `C4_cancel_unconditional`. -/
theorem C4_cancel_unconditional_witness :
    TaskStatus.canceled = TaskStatus.canceled
    ∧ (∀ u ∈ (DB.updateTask
          (DB.mk [{ id := "bbbbbbbb-bbbb-bbbb-bbbb-bbbbbbbbbbbb",
                    mode := Mode.auto, source := "m", infohash := "h",
                    status := .downloading }] [])
          "bbbbbbbb-bbbb-bbbb-bbbb-bbbbbbbbbbbb"
          (fun t => { t with status := .canceled })).tasks,
        u.id = strLower "bbbbbbbb-bbbb-bbbb-bbbb-bbbbbbbbbbbb" → u.status = .canceled)
    ∧ Event.state (strLower "bbbbbbbb-bbbb-bbbb-bbbb-bbbbbbbbbbbb") .canceled none
        ∈ [Event.state "bbbbbbbb-bbbb-bbbb-bbbb-bbbbbbbbbbbb" .canceled none] := by
  have h := C4_cancel_unconditional
    (DB.mk [{ id := "bbbbbbbb-bbbb-bbbb-bbbb-bbbbbbbbbbbb",
              mode := Mode.auto, source := "m", infohash := "h",
              status := .downloading }] [])
    "bbbbbbbb-bbbb-bbbb-bbbb-bbbbbbbbbbbb"
    (DB.updateTask
        (DB.mk [{ id := "bbbbbbbb-bbbb-bbbb-bbbb-bbbbbbbbbbbb",
                  mode := Mode.auto, source := "m", infohash := "h",
                  status := .downloading }] [])
        "bbbbbbbb-bbbb-bbbb-bbbb-bbbbbbbbbbbb"
        (fun t => { t with status := .canceled }),
     [Event.state "bbbbbbbb-bbbb-bbbb-bbbb-bbbbbbbbbbbb" .canceled none],
     TaskStatus.canceled)
    (by rfl)
  exact ⟨rfl, h.2.1, h.2.2⟩

/-! ## Claim C10 -/

/-- C10 (confirmed).  For any syntactically valid task id, `delete_task`
returns `{ok: true}` whether or not a row exists; afterwards no task row with
that id remains; and with `purge_files = false` the on-disk files directory
is never touched. -/
theorem C10_delete_idempotent (db : DB) (task_id : String) (purge : Bool)
    (v : String) (hv : validate_task_id task_id = .ok v) :
    ∃ db' act, delete_task db task_id purge = .ok (db', act)
      ∧ (∀ u ∈ db'.tasks, u.id ≠ v)
      ∧ (purge = false → act = false) := by
  unfold delete_task
  rw [hv]
  dsimp only
  cases hfind : db.tasks.find? (fun t => t.id == v) with
  | none =>
    refine ⟨db, false, rfl, ?_, fun _ => rfl⟩
    intro u hu hcontra
    have := List.find?_eq_none.mp hfind u hu
    simp [hcontra] at this
  | some t =>
    refine ⟨_, purge, rfl, ?_, fun hp => hp⟩
    intro u hu hcontra
    rw [List.mem_filter] at hu
    simp [hcontra] at hu

/-- Witness for `C10_delete_idempotent`: deleting an id with no matching row
(and one with a matching row would work equally). -/
theorem C10_delete_idempotent_witness :
    ∃ db' act, delete_task
        (DB.mk [{ id := "cccccccc-cccc-cccc-cccc-cccccccccccc",
                  mode := Mode.auto, source := "m", infohash := "h",
                  status := .ready }] [])
        "cccccccc-cccc-cccc-cccc-cccccccccccc" false = .ok (db', act)
      ∧ (∀ u ∈ db'.tasks, u.id ≠ "cccccccc-cccc-cccc-cccc-cccccccccccc")
      ∧ (false = false → act = false) :=
  C10_delete_idempotent
    (DB.mk [{ id := "cccccccc-cccc-cccc-cccc-cccccccccccc",
              mode := Mode.auto, source := "m", infohash := "h",
              status := .ready }] [])
    "cccccccc-cccc-cccc-cccc-cccccccccccc" false
    "cccccccc-cccc-cccc-cccc-cccccccccccc" (by rfl)

/-! ## Claim C7 -/

/-- C7 (code bug).  The reuse/insert semantics of the submission endpoint are
unreachable: every request that passes source and label validation hits the
`AttributeError` at api.py line 84 and the endpoint answers HTTP 500 — the
handler never returns `reused = true/false` and never creates a row.  Both a
fresh magnet submission and a re-submission whose infohash matches an
existing `queued` task end in the internal error. -/
theorem C7_submit_crashes :
    create_task (fun s => s) (DB.mk [] [])
        "eeeeeeee-eeee-eeee-eeee-eeeeeeeeeeee" 0
        { mode := "auto",
          source := "magnet:?xt=urn:btih:aaaaaaaaaaaaaaaaaaaaaaaaaaaaaaaaaaaaaaaa" }
      = .error (.internalError
          "AttributeError: CreateTaskRequest object has no attribute user_id")
    ∧ create_task (fun s => s)
        (DB.mk [{ id := "dddddddd-dddd-dddd-dddd-dddddddddddd",
                  mode := Mode.auto,
                  source := "magnet:?xt=urn:btih:aaaaaaaaaaaaaaaaaaaaaaaaaaaaaaaaaaaaaaaa",
                  source_type := .magnet,
                  infohash := "aaaaaaaaaaaaaaaaaaaaaaaaaaaaaaaaaaaaaaaa",
                  status := .queued }] [])
        "eeeeeeee-eeee-eeee-eeee-eeeeeeeeeeee" 1
        { mode := "auto",
          source := "magnet:?xt=urn:btih:aaaaaaaaaaaaaaaaaaaaaaaaaaaaaaaaaaaaaaaa" }
      = .error (.internalError
          "AttributeError: CreateTaskRequest object has no attribute user_id") := by
  refine ⟨?_, ?_⟩ <;> rfl

/-! ## Claim C6 counterexample pipeline -/

/-- One pass of `worker_loop` (worker/worker.py lines 363-384): resolve every
`queued` task, then for every ACTIVE task that is not awaiting selection and
passes admission, run the dispatcher. -/
def worker_pass (stg : Settings) (free : Nat) (renv : ResolveEnv)
    (denv : DispatchEnv) (db : DB) : DB :=
  let queued := db.tasks.filter (fun t => t.status == .queued)
  let db := queued.foldl (fun d t => (resolve_task renv d t).db) db
  let active := db.tasks.filter (fun t => decide (t.status ∈ TaskStatus.ACTIVE_STATUSES))
  active.foldl (fun d t =>
    if t.status == .waiting_selection then d
    else if can_start_task free stg d t then (start_next_files stg denv d t).1
    else d) db

/-- Distinct valid task ids for the nine tasks. -/
def c6_uuid (i : Nat) : String :=
  "00000000-0000-4000-8000-00000000000" ++ toString i

/-- Nine distinct magnet links: `btih` is a digit repeated 40 times. -/
def c6_source (i : Nat) : String :=
  "magnet:?xt=urn:btih:" ++ String.mk (List.replicate 40 (Char.ofNat (48 + i)))

/-- The i-th task row, in `queued` — the `task.status` column's DEFAULT
(app/models.py line 40), i.e. the state in which every inserted task row
begins.  (The submission endpoint meant to insert such rows currently 500s
on the api.py line 84 `AttributeError` — see C7 — so the rows here stand
for any store that holds queued tasks: rows predating that schema
regression, or inserted once it is fixed.) -/
def c6_task (i : Nat) : Task :=
  { id := c6_uuid i, mode := .auto, source := c6_source i,
    source_type := .magnet,
    infohash := String.mk (List.replicate 40 (Char.ofNat (48 + i))),
    status := .queued, created_at := i }

/-- A store holding nine queued three-file magnet tasks and no file rows. -/
def c6_db_submitted : DB := DB.mk ((List.range 9).map c6_task) []

/-- Provider stub: three 10-byte files on the first poll. -/
def c6_renv : ResolveEnv :=
  { upload_magnets := fun _ => "m",
    get_magnet_status := fun _ _ =>
      { files := [{ name := "a.bin", size := 10, link := some "L" },
                  { name := "b.bin", size := 10, link := some "L" },
                  { name := "c.bin", size := 10, link := some "L" }],
        terminal_error := none },
    fresh_file_id := fun tid n => tid ++ "-f" ++ toString n }

/-- Executor stub: writable directory, every unlock and enqueue succeeds. -/
def c6_denv : DispatchEnv :=
  { dir_writable := true, unlock := fun _ => some "http://dl",
    enqueue_ok := fun _ => true }

/-- The store after one full worker pass with 12 GiB free. -/
def c6_final : DB :=
  worker_pass settings (12 * 1024 * 1024 * 1024) c6_renv c6_denv c6_db_submitted

/-- C6 counterexample.  From a store holding nine queued auto-mode magnet
tasks (the default state of inserted task rows), one worker pass — the real
`resolve_task` on each (three files listed, auto-selected) followed by the
real dispatcher on each — leaves 27 files simultaneously in `downloading`,
exceeding `GLOBAL_QUEUE_LIMIT = 25`: neither `worker_loop`, `can_start_task`
nor `start_next_files` ever consults a global count. -/
theorem C6_counterexample :
    (c6_final.files.filter (fun f => f.state == .downloading)).length = 27
    ∧ settings.GLOBAL_QUEUE_LIMIT = 25
    ∧ 25 < 27 := by
  refine ⟨?_, ?_, ?_⟩ <;> decide

end ADP
